import Mathlib

/-!
Verification of the astrodynamics core of the `orbits` package
(`orbits/astro/afunc.py`, `vectors.py`, `transf.py`, `rfunc.py`,
`maneuvers.py`) against its natural-language specification.

Modelling conventions.

Python floats are modelled as real numbers.  A Python arithmetic result
that may be a `complex` (Python returns a complex number from
`x ** 0.5` when `x < 0` instead of raising) is modelled as a pair
`ℝ × ℝ` of real and imaginary part; the helper functions `pypowHalf`,
`pyAdd`, `pySub`, `pyMul`, `pyDiv`, `pySMul`, `pyAbs` and `pySqrt`
model the corresponding Python operations on such values.

Numpy length-3 arrays are modelled as `Fin 3 → ℝ`, with `dot3`,
`cross3`, `norm3` and `mulVec3` modelling `np.dot`, `np.cross`,
`np.linalg.norm` and matrix–vector `dot`.

Unbounded `while True` loops (the Newton iterations of
`kepler_problem` and `gauss_problem`) are modelled by structural
recursion on an explicit fuel parameter; running out of fuel is a
distinct outcome from the error paths of the source.
-/

namespace Orbits

open Real

noncomputable section

/-! Model of Python numbers that may be real or complex. -/

/-- Model of a Python value that `float` arithmetic can produce when
fractional powers of negative numbers appear: a complex number stored as
(real part, imaginary part).  A plain float `x` is `(x, 0)`. -/
abbrev Cx := ℝ × ℝ

/-- Model of Python `x ** 0.5` for a real float `x`: the principal square
root.  For `x ≥ 0` it is the real square root; for `x < 0` Python silently
returns the complex number `i·sqrt(-x)` instead of raising an error. -/
def pypowHalf (x : ℝ) : Cx := if 0 ≤ x then (Real.sqrt x, 0) else (0, Real.sqrt (-x))

/-- Componentwise addition of Python numbers. -/
def pyAdd (z w : Cx) : Cx := (z.1 + w.1, z.2 + w.2)

/-- Componentwise subtraction of Python numbers. -/
def pySub (z w : Cx) : Cx := (z.1 - w.1, z.2 - w.2)

/-- Complex multiplication of Python numbers. -/
def pyMul (z w : Cx) : Cx := (z.1 * w.1 - z.2 * w.2, z.1 * w.2 + z.2 * w.1)

/-- Complex division of Python numbers. -/
def pyDiv (z w : Cx) : Cx :=
  ((z.1 * w.1 + z.2 * w.2) / (w.1 ^ 2 + w.2 ^ 2), (z.2 * w.1 - z.1 * w.2) / (w.1 ^ 2 + w.2 ^ 2))

/-- Multiplication of a Python number by a real scalar. -/
def pySMul (r : ℝ) (z : Cx) : Cx := (r * z.1, r * z.2)

/-- Model of Python `abs` on a possibly-complex value: the modulus. -/
def pyAbs (z : Cx) : ℝ := Real.sqrt (z.1 ^ 2 + z.2 ^ 2)

/-- Model of Python `z ** 0.5` on a possibly-complex value: the principal
complex square root (real part always nonnegative). -/
def pySqrt (z : Cx) : Cx :=
  if z.2 = 0 then pypowHalf z.1
  else (Real.sqrt ((pyAbs z + z.1) / 2), Real.sign z.2 * Real.sqrt ((pyAbs z - z.1) / 2))

/-! Numpy length-3 vectors. -/

/-- Model of `np.dot` on length-3 arrays. -/
def dot3 (u v : Fin 3 → ℝ) : ℝ := u 0 * v 0 + u 1 * v 1 + u 2 * v 2

/-- Model of `np.cross` on length-3 arrays. -/
def cross3 (u v : Fin 3 → ℝ) : Fin 3 → ℝ :=
  ![u 1 * v 2 - u 2 * v 1, u 2 * v 0 - u 0 * v 2, u 0 * v 1 - u 1 * v 0]

/-- Model of `np.linalg.norm` on length-3 arrays. -/
def norm3 (u : Fin 3 → ℝ) : ℝ := Real.sqrt (dot3 u u)

/-- Model of `matrix.dot(vector)` for a 3×3 matrix given as rows. -/
def mulVec3 (M : Fin 3 → Fin 3 → ℝ) (v : Fin 3 → ℝ) : Fin 3 → ℝ :=
  ![dot3 (M 0) v, dot3 (M 1) v, dot3 (M 2) v]

/-! Embeddings of `orbits/astro/afunc.py`. -/

/-- Source `afunc.orbital_radius`:
`semi_latus_rectum/(1 + eccentricity*math.cos(true_anomaly))`. -/
def orbital_radius (semi_latus_rectum eccentricity true_anomaly : ℝ) : ℝ :=
  semi_latus_rectum / (1 + eccentricity * Real.cos true_anomaly)

/-- Source `afunc.vis_viva`:
`(gravitational_parameter*(2/radius - 1/semi_major_axis))**0.5`.
The Python `** 0.5` is modelled by `pypowHalf`, so a negative radicand
produces a complex value, exactly as in Python. -/
def vis_viva (radius semi_major_axis gravitational_parameter : ℝ) : Cx :=
  pypowHalf (gravitational_parameter * (2 / radius - 1 / semi_major_axis))

/-- Source `afunc.circular_speed`: `(gravitational_parameter/radius)**0.5`. -/
def circular_speed (radius gravitational_parameter : ℝ) : Cx :=
  pypowHalf (gravitational_parameter / radius)

/-- Source `afunc.turning_angle`: returns `2*math.asin(1/eccentricity)` when
`eccentricity > 1`, else the Python `None` sentinel. -/
def turning_angle (eccentricity : ℝ) : Option ℝ :=
  if 1 < eccentricity then some (2 * Real.arcsin (1 / eccentricity)) else none

/-- Source `afunc.semi_major_axis`: with `radii=True` the arithmetic mean of
the two radii; otherwise `semi_latus_rectum/(1 - eccentricity**2)` when
`eccentricity != 1`, else the Python `None` sentinel. -/
def semi_major_axis (semi_latus_rectum eccentricity : ℝ) (radii : Bool)
    (radius_one radius_two : ℝ) : Option ℝ :=
  if radii then some ((radius_one + radius_two) / 2)
  else if eccentricity ≠ 1 then some (semi_latus_rectum / (1 - eccentricity ^ 2))
  else none

/-- Source `afunc.angular_momentum`: `np.cross(position, velocity)`. -/
def angular_momentum (position_vector velocity_vector : Fin 3 → ℝ) : Fin 3 → ℝ :=
  cross3 position_vector velocity_vector

/-- Source `afunc.node_vector`: `np.cross([0,0,1], h)`. -/
def node_vector (specific_angular_momentum_vector : Fin 3 → ℝ) : Fin 3 → ℝ :=
  cross3 ![0, 0, 1] specific_angular_momentum_vector

/-- Source `afunc.eccentricity_vector` (with the magnitudes supplied by the
caller, as `DetermineElements` does):
`(1/μ)·((v² - μ/r)·r⃗ - (r⃗·v⃗)·v⃗)`. -/
def eccentricity_vector (position_vector velocity_vector : Fin 3 → ℝ)
    (gravitational_parameter position_magnitude velocity_magnitude : ℝ) : Fin 3 → ℝ :=
  fun j =>
    (1 / gravitational_parameter) *
      ((velocity_magnitude ^ 2 - gravitational_parameter / position_magnitude) *
          position_vector j -
        dot3 position_vector velocity_vector * velocity_vector j)

/-- Source `afunc.mechanical_energy`: `v²/2 - μ/r`. -/
def mechanical_energy (position_magnitude velocity_magnitude gravitational_parameter : ℝ) : ℝ :=
  velocity_magnitude ^ 2 / 2 - gravitational_parameter / position_magnitude

/-- Source `afunc.flight_time`.  Branches on the eccentricity regime exactly
as the Python does; the possibly-complex `(a**3/μ)**0.5` factors are modelled
with `pypowHalf`.  Python `math.acos` raises outside `[-1, 1]` where
`Real.arccos` clamps, and the parabolic `p**0.5` is taken real; neither
difference is reachable in the claims below.  `periapsis_num` is the integer
`k` counting periapsis passages.  The `e < 0` branch is the source's
`raise Exception(...)`. -/
def flight_time (eccentricity semi_latus_rectum true_anomaly_one true_anomaly_two : ℝ)
    (periapsis_num : ℤ) (gravitational_parameter : ℝ) : Except String Cx :=
  if 0 ≤ eccentricity ∧ eccentricity < 1 then
    let e0 := Real.arccos ((eccentricity + Real.cos true_anomaly_one) /
      (1 + eccentricity * Real.cos true_anomaly_one))
    let e1 := Real.arccos ((eccentricity + Real.cos true_anomaly_two) /
      (1 + eccentricity * Real.cos true_anomaly_two))
    let a := (semi_major_axis semi_latus_rectum eccentricity false 0 0).getD 0
    Except.ok (pySMul
      (2 * periapsis_num * π + (e1 - eccentricity * Real.sin e1) -
        (e0 - eccentricity * Real.sin e0))
      (pypowHalf (a ^ 3 / gravitational_parameter)))
  else if eccentricity = 1 then
    let d0 := Real.sqrt semi_latus_rectum * Real.tan (true_anomaly_one / 2)
    let d1 := Real.sqrt semi_latus_rectum * Real.tan (true_anomaly_two / 2)
    Except.ok ((1 / (2 * Real.sqrt gravitational_parameter)) *
      ((semi_latus_rectum * d1 + d1 ^ 3 / 3) - (semi_latus_rectum * d0 + d0 ^ 3 / 3)), 0)
  else if 1 < eccentricity then
    let f0 := Real.cosh ((eccentricity + Real.cos true_anomaly_one) /
      (1 + eccentricity * Real.cos true_anomaly_one))
    let f1 := Real.cosh ((eccentricity + Real.cos true_anomaly_two) /
      (1 + eccentricity * Real.cos true_anomaly_two))
    let a := (semi_major_axis semi_latus_rectum eccentricity false 0 0).getD 0
    let f0 := if π < true_anomaly_one ∧ true_anomaly_one < 2 * π then -f0 else f0
    let f1 := if π < true_anomaly_two ∧ true_anomaly_two < 2 * π then -f1 else f1
    Except.ok (pySMul
      ((eccentricity * Real.sinh f1 - f1) - (eccentricity * Real.sinh f0 - f0))
      (pypowHalf (a ^ 3 / gravitational_parameter)))
  else Except.error "eccentricity must be greater than or equal to 0"

end

/-! Embeddings of `orbits/astro/maneuvers.py`. -/

noncomputable section

/-- Source `afunc.periapsis_length`: `distance*(1 - e)` when the distance is
a semi-major axis, `distance/(1 + e)` when it is a semi-latus rectum. -/
def periapsis_length (distance eccentricity : ℝ) (semi_major_axis : Bool) : ℝ :=
  if semi_major_axis then distance * (1 - eccentricity) else distance / (1 + eccentricity)

/-- Source `afunc.apoapsis_length`: `distance*(1 + e)` when the distance is
a semi-major axis, `distance/(1 - e)` when it is a semi-latus rectum. -/
def apoapsis_length (distance eccentricity : ℝ) (semi_major_axis : Bool) : ℝ :=
  if semi_major_axis then distance * (1 + eccentricity) else distance / (1 - eccentricity)

/-- Source `maneuvers.delta_v`: `abs(vis_viva(...) - circular_speed(...))`;
Python `abs` of a possibly-complex value is the modulus `pyAbs`. -/
def delta_v (radius semi_major_axis_transfer_orbit gravitational_parameter : ℝ) : ℝ :=
  pyAbs (pySub (vis_viva radius semi_major_axis_transfer_orbit gravitational_parameter)
    (circular_speed radius gravitational_parameter))

/-- Source class `maneuvers.Hohmann` (the `start_time` attribute only enters
the impulse schedule and is not needed by any claim). -/
structure Hohmann where
  initial_radius : ℝ
  final_radius : ℝ
  gravitational_parameter : ℝ

/-- Source `Hohmann.__init__` attribute `_semi_major_axis_transfer`, from
`semi_major_axis(radii=True, ...)` (always a `some`, hence the `getD`). -/
def Hohmann.semi_major_axis_transfer (h : Hohmann) : ℝ :=
  (semi_major_axis 0 0 true h.initial_radius h.final_radius).getD 0

/-- Source `Hohmann.__delta_v`: the shared site formula, negated exactly when
`initial_radius > final_radius`. -/
def Hohmann.delta_v_site (h : Hohmann) (radius : ℝ) : ℝ :=
  let dv := delta_v radius h.semi_major_axis_transfer h.gravitational_parameter
  if h.initial_radius > h.final_radius then -dv else dv

/-- Source property `Hohmann.delta_v_1`. -/
def Hohmann.delta_v_1 (h : Hohmann) : ℝ := h.delta_v_site h.initial_radius

/-- Source property `Hohmann.delta_v_2`. -/
def Hohmann.delta_v_2 (h : Hohmann) : ℝ := h.delta_v_site h.final_radius

/-- Source class `maneuvers.BiElliptic`. -/
structure BiElliptic where
  initial_radius : ℝ
  final_radius : ℝ
  gravitational_parameter : ℝ
  transfer_apoapsis : ℝ

/-- Source `BiElliptic.__init__` attribute `_semi_major_axis_one`. -/
def BiElliptic.semi_major_axis_one (b : BiElliptic) : ℝ :=
  (semi_major_axis 0 0 true b.initial_radius b.transfer_apoapsis).getD 0

/-- Source `BiElliptic.__init__` attribute `_semi_major_axis_two`. -/
def BiElliptic.semi_major_axis_two (b : BiElliptic) : ℝ :=
  (semi_major_axis 0 0 true b.final_radius b.transfer_apoapsis).getD 0

/-- Source property `BiElliptic.delta_v_1`: plain `delta_v(...)`, with no
radius comparison and no sign adjustment. -/
def BiElliptic.delta_v_1 (b : BiElliptic) : ℝ :=
  delta_v b.initial_radius b.semi_major_axis_one b.gravitational_parameter

/-- Source property `BiElliptic.delta_v_2`: speed-difference magnitude at the
transfer apoapsis, negated exactly when `initial_radius > final_radius`. -/
def BiElliptic.delta_v_2 (b : BiElliptic) : ℝ :=
  let dv := pyAbs (pySub
    (vis_viva b.transfer_apoapsis b.semi_major_axis_two b.gravitational_parameter)
    (vis_viva b.transfer_apoapsis b.semi_major_axis_one b.gravitational_parameter))
  if b.initial_radius > b.final_radius then -dv else dv

/-- Source property `BiElliptic.delta_v_3`: `-1*delta_v(...)`, always
negated, with no radius comparison. -/
def BiElliptic.delta_v_3 (b : BiElliptic) : ℝ :=
  -1 * delta_v b.final_radius b.semi_major_axis_two b.gravitational_parameter

/-- Source class `maneuvers.GeneralTransfer`. -/
structure GeneralTransfer where
  initial_radius : ℝ
  final_radius : ℝ
  gravitational_parameter : ℝ
  transfer_eccentricity : ℝ

/-- Source `GeneralTransfer.__init__` local `a`. -/
def GeneralTransfer.sma (g : GeneralTransfer) : ℝ :=
  (semi_major_axis 0 0 true g.initial_radius g.final_radius).getD 0

/-- Source `GeneralTransfer.__init__` local `semi_latus_rectum`. -/
def GeneralTransfer.slr (g : GeneralTransfer) : ℝ :=
  g.sma * (1 - g.transfer_eccentricity ^ 2)

/-- Source `GeneralTransfer.__init__` raise condition: the transfer conic
must span both circular radii, otherwise the constructor raises. -/
def GeneralTransfer.invalid (g : GeneralTransfer) : Prop :=
  periapsis_length g.slr g.transfer_eccentricity false > min g.initial_radius g.final_radius ∨
    apoapsis_length g.slr g.transfer_eccentricity false < max g.initial_radius g.final_radius

/-- Source `GeneralTransfer.__init__` attribute `_angular_momentum_transfer`:
`(μ*semi_latus_rectum)**0.5`. -/
def GeneralTransfer.angular_momentum_transfer (g : GeneralTransfer) : Cx :=
  pypowHalf (g.gravitational_parameter * g.slr)

/-- Source `GeneralTransfer.__init__` attribute `_initial_speed_circular`. -/
def GeneralTransfer.initial_speed_circular (g : GeneralTransfer) : Cx :=
  circular_speed g.initial_radius g.gravitational_parameter

/-- Source `GeneralTransfer.__init__` attribute `_initial_speed_transfer`. -/
def GeneralTransfer.initial_speed_transfer (g : GeneralTransfer) : Cx :=
  vis_viva g.initial_radius g.sma g.gravitational_parameter

/-- Source `GeneralTransfer.__init__` attribute `_final_speed_transfer`. -/
def GeneralTransfer.final_speed_transfer (g : GeneralTransfer) : Cx :=
  vis_viva g.final_radius g.sma g.gravitational_parameter

/-- Source `GeneralTransfer.__init__` attribute `_final_speed_circular`. -/
def GeneralTransfer.final_speed_circular (g : GeneralTransfer) : Cx :=
  circular_speed g.final_radius g.gravitational_parameter

/-- Source static method `GeneralTransfer.__delta_v`: law-of-cosines
combination of the circular and transfer speeds, with
`cosine_flight_path_angle = momentum/(radius*transfer_speed)`. -/
def GeneralTransfer.delta_v_static (circle_speed transfer_speed : Cx) (radius : ℝ)
    (momentum : Cx) : Cx :=
  let cosine_flight_path_angle := pyDiv momentum (pySMul radius transfer_speed)
  pySqrt (pySub (pyAdd (pyMul circle_speed circle_speed) (pyMul transfer_speed transfer_speed))
    (pyMul (pySMul 2 (pyMul circle_speed transfer_speed)) cosine_flight_path_angle))

/-- Source property `GeneralTransfer.delta_v_1`. -/
def GeneralTransfer.delta_v_1 (g : GeneralTransfer) : Cx :=
  GeneralTransfer.delta_v_static g.initial_speed_circular g.initial_speed_transfer
    g.initial_radius g.angular_momentum_transfer

/-- Source property `GeneralTransfer.delta_v_2`. -/
def GeneralTransfer.delta_v_2 (g : GeneralTransfer) : Cx :=
  GeneralTransfer.delta_v_static g.final_speed_circular g.final_speed_transfer
    g.final_radius g.angular_momentum_transfer

end

/-! Embeddings of `orbits/astro/transf.py`, `params.py` (Earth constants)
and `rfunc.py`, and of the `DopplerRadar` class of `vectors.py`. -/

noncomputable section

/-- Source `transf.rotate_x`. -/
def rotate_x (angle : ℝ) : Fin 3 → Fin 3 → ℝ :=
  ![![1, 0, 0],
    ![0, Real.cos angle, -Real.sin angle],
    ![0, Real.sin angle, Real.cos angle]]

/-- Source `transf.rotate_y`. -/
def rotate_y (angle : ℝ) : Fin 3 → Fin 3 → ℝ :=
  ![![Real.cos angle, 0, Real.sin angle],
    ![0, 1, 0],
    ![-Real.sin angle, 0, Real.cos angle]]

/-- Source `transf.rotate_z`. -/
def rotate_z (angle : ℝ) : Fin 3 → Fin 3 → ℝ :=
  ![![Real.cos angle, -Real.sin angle, 0],
    ![Real.sin angle, Real.cos angle, 0],
    ![0, 0, 1]]

/-- Model of `np.dot` for two 3×3 matrices. -/
def matMul3 (A B : Fin 3 → Fin 3 → ℝ) : Fin 3 → Fin 3 → ℝ :=
  fun i j => dot3 (A i) fun k => B k j

/-- Determinant of a 3×3 matrix, used to model `np.linalg.inv`. -/
def det3 (M : Fin 3 → Fin 3 → ℝ) : ℝ :=
  M 0 0 * (M 1 1 * M 2 2 - M 1 2 * M 2 1) - M 0 1 * (M 1 0 * M 2 2 - M 1 2 * M 2 0) +
    M 0 2 * (M 1 0 * M 2 1 - M 1 1 * M 2 0)

/-- Model of `np.linalg.inv` for a 3×3 matrix: adjugate over determinant. -/
def inv3 (M : Fin 3 → Fin 3 → ℝ) : Fin 3 → Fin 3 → ℝ :=
  fun i j =>
    (![![M 1 1 * M 2 2 - M 1 2 * M 2 1, M 0 2 * M 2 1 - M 0 1 * M 2 2,
        M 0 1 * M 1 2 - M 0 2 * M 1 1],
      ![M 1 2 * M 2 0 - M 1 0 * M 2 2, M 0 0 * M 2 2 - M 0 2 * M 2 0,
        M 0 2 * M 1 0 - M 0 0 * M 1 2],
      ![M 1 0 * M 2 1 - M 1 1 * M 2 0, M 0 1 * M 2 0 - M 0 0 * M 2 1,
        M 0 0 * M 1 1 - M 0 1 * M 1 0]] : Fin 3 → Fin 3 → ℝ) i j / det3 M

/-- Source `transf.geo_to_topo`:
`np.dot(rotate_y(latitude - pi/2), rotate_z(-local_sidereal_time))`. -/
def geo_to_topo (latitude local_sidereal_time : ℝ) : Fin 3 → Fin 3 → ℝ :=
  matMul3 (rotate_y (latitude - π / 2)) (rotate_z (-local_sidereal_time))

/-- Source `transf.topo_to_geo`: `np.linalg.inv(geo_to_topo(...))`. -/
def topo_to_geo (latitude local_sidereal_time : ℝ) : Fin 3 → Fin 3 → ℝ :=
  inv3 (geo_to_topo latitude local_sidereal_time)

/-- Source `transf.peri_to_geo` (eccentricity ≠ 0, inclination ∉ {0, π}). -/
def peri_to_geo (inclination longitude_of_ascending_node periapsis_angle : ℝ) :
    Fin 3 → Fin 3 → ℝ :=
  ![![Real.cos longitude_of_ascending_node * Real.cos periapsis_angle -
        Real.sin longitude_of_ascending_node * Real.sin periapsis_angle *
          Real.cos inclination,
      -Real.cos longitude_of_ascending_node * Real.sin periapsis_angle -
        Real.sin longitude_of_ascending_node * Real.cos periapsis_angle *
          Real.cos inclination,
      Real.sin longitude_of_ascending_node * Real.sin inclination],
    ![Real.sin longitude_of_ascending_node * Real.cos periapsis_angle +
        Real.cos longitude_of_ascending_node * Real.sin periapsis_angle *
          Real.cos inclination,
      -Real.sin longitude_of_ascending_node * Real.sin periapsis_angle +
        Real.cos longitude_of_ascending_node * Real.cos periapsis_angle *
          Real.cos inclination,
      -Real.cos longitude_of_ascending_node * Real.sin inclination],
    ![Real.sin periapsis_angle * Real.sin inclination,
      Real.cos periapsis_angle * Real.sin inclination,
      Real.cos inclination]]

/-- Source `transf.peri_to_geo_e` (eccentricity = 0, inclination ∉ {0, π}). -/
def peri_to_geo_e (inclination longitude_of_ascending_node : ℝ) : Fin 3 → Fin 3 → ℝ :=
  ![![Real.cos longitude_of_ascending_node,
      -Real.sin longitude_of_ascending_node * Real.cos inclination,
      Real.sin longitude_of_ascending_node * Real.sin inclination],
    ![Real.sin longitude_of_ascending_node,
      Real.cos longitude_of_ascending_node * Real.cos inclination,
      -Real.cos longitude_of_ascending_node * Real.sin inclination],
    ![0, Real.sin inclination, Real.cos inclination]]

/-- Source `transf.peri_to_geo_i` (inclination ∈ {0, π}, eccentricity ≠ 0). -/
def peri_to_geo_i (periapsis_angle : ℝ) : Fin 3 → Fin 3 → ℝ :=
  ![![Real.cos periapsis_angle, -Real.sin periapsis_angle, 0],
    ![Real.sin periapsis_angle, Real.cos periapsis_angle, 0],
    ![0, 0, 1]]

end

namespace Earth

/-- Source `params.Earth.equatorial_radius` (km). -/
def equatorial_radius : ℝ := 6378.1

/-- Source `params.Earth.polar_radius` (km). -/
def polar_radius : ℝ := 6356.8

/-- Source `params.Earth.ellipsoid_eccentricity`. -/
def ellipsoid_eccentricity : ℝ := 0.08182

/-- Source `params.Earth.gravitational_parameter` (km³/s²). -/
def gravitational_parameter : ℝ := 3.986004418e5

/-- Source `params.Earth.angular_rotation`:
`2*pi/sidereal_rotation_period` with the sidereal period `0.99726968` days. -/
noncomputable def angular_rotation : ℝ := 2 * π / (0.99726968 * 86400)

end Earth

noncomputable section

/-- Source `rfunc.station_position`: ground-station position in the
geocentric-equatorial frame from latitude, elevation and local sidereal
time on the ellipsoidal Earth model (`math.radians(x) = x·π/180`). -/
def station_position (latitude elevation local_sidereal_time : ℝ) (degrees : Bool) :
    Fin 3 → ℝ :=
  let lat := if degrees then latitude * π / 180 else latitude
  let lst := if degrees then local_sidereal_time * π / 180 else local_sidereal_time
  let denominator :=
    Real.sqrt (1 - Earth.ellipsoid_eccentricity ^ 2 * Real.sin lat ^ 2)
  let x := Real.cos lat * (Earth.equatorial_radius / denominator + elevation)
  let z := Real.sin lat *
    (Earth.polar_radius * (1 - Earth.ellipsoid_eccentricity ^ 2) / denominator + elevation)
  ![x * Real.cos lst, x * Real.sin lst, z]

/-- Source class `vectors.DopplerRadar`.  The `raw` fields are the Python
underscore attributes exactly as stored by `__init__`, in argument order
`positions`, `speeds`, `station_location`, `angular_velocity`, `degrees`. -/
structure DopplerRadar where
  distance_raw : ℝ
  azimuth_raw : ℝ
  altitude_raw : ℝ
  distance_dot_raw : ℝ
  azimuth_dot_raw : ℝ
  altitude_dot_raw : ℝ
  elevation_raw : ℝ
  latitude_raw : ℝ
  local_sidereal_time_raw : ℝ
  angular_velocity_raw : ℝ
  degrees : Bool

/-- Source private method `DopplerRadar.__deg`: converts the attribute from
degrees to radians when the `degrees` flag is set. -/
def DopplerRadar.deg (d : DopplerRadar) (attr : ℝ) : ℝ :=
  if d.degrees then attr * π / 180 else attr

/-- Source property `DopplerRadar.distance` (applies `__deg`). -/
def DopplerRadar.distance (d : DopplerRadar) : ℝ := d.deg d.distance_raw

/-- Source property `DopplerRadar.azimuth`. -/
def DopplerRadar.azimuth (d : DopplerRadar) : ℝ := d.deg d.azimuth_raw

/-- Source property `DopplerRadar.altitude`. -/
def DopplerRadar.altitude (d : DopplerRadar) : ℝ := d.deg d.altitude_raw

/-- Source property `DopplerRadar.distance_dot` (applies `__deg`). -/
def DopplerRadar.distance_dot (d : DopplerRadar) : ℝ := d.deg d.distance_dot_raw

/-- Source property `DopplerRadar.azimuth_dot`. -/
def DopplerRadar.azimuth_dot (d : DopplerRadar) : ℝ := d.deg d.azimuth_dot_raw

/-- Source property `DopplerRadar.altitude_dot`. -/
def DopplerRadar.altitude_dot (d : DopplerRadar) : ℝ := d.deg d.altitude_dot_raw

/-- Source property `DopplerRadar.latitude`. -/
def DopplerRadar.latitude (d : DopplerRadar) : ℝ := d.deg d.latitude_raw

/-- Source property `DopplerRadar.elevation`. -/
def DopplerRadar.elevation (d : DopplerRadar) : ℝ := d.deg d.elevation_raw

/-- Source property `DopplerRadar.local_sidereal_time`. -/
def DopplerRadar.local_sidereal_time (d : DopplerRadar) : ℝ := d.deg d.local_sidereal_time_raw

/-- Source property `DopplerRadar.angular_velocity`:
`np.array([0, 0, __deg(angular_velocity)])`. -/
def DopplerRadar.angular_velocity (d : DopplerRadar) : Fin 3 → ℝ :=
  ![0, 0, d.deg d.angular_velocity_raw]

/-- Source private method `DopplerRadar.__transform`:
`topo_to_geo(latitude, local_sidereal_time)`. -/
def DopplerRadar.transform (d : DopplerRadar) : Fin 3 → Fin 3 → ℝ :=
  topo_to_geo d.latitude d.local_sidereal_time

/-- Source property `DopplerRadar.topo_position`. -/
def DopplerRadar.topo_position (d : DopplerRadar) : Fin 3 → ℝ :=
  ![-d.distance * Real.cos d.altitude * Real.cos d.azimuth,
    d.distance * Real.cos d.altitude * Real.sin d.azimuth,
    d.distance * Real.sin d.altitude]

/-- Source property `DopplerRadar.topo_velocity`. -/
def DopplerRadar.topo_velocity (d : DopplerRadar) : Fin 3 → ℝ :=
  ![-d.distance_dot * Real.cos d.altitude * Real.cos d.azimuth +
      d.distance * Real.sin d.altitude * d.altitude_dot * Real.cos d.azimuth +
      d.distance * Real.cos d.altitude * Real.sin d.azimuth * d.azimuth_dot,
    d.distance_dot * Real.cos d.altitude * Real.sin d.azimuth -
      d.distance * Real.sin d.altitude * d.altitude_dot * Real.sin d.azimuth +
      d.distance * Real.cos d.altitude * Real.cos d.azimuth * d.azimuth_dot,
    d.distance_dot * Real.sin d.altitude +
      d.distance * Real.cos d.altitude * d.altitude_dot]

/-- Source property `DopplerRadar.geo_position`:
`transform · topo_position + station_position(latitude, elevation, lst)`. -/
def DopplerRadar.geo_position (d : DopplerRadar) : Fin 3 → ℝ :=
  mulVec3 d.transform d.topo_position +
    station_position d.latitude d.elevation d.local_sidereal_time false

/-- Source property `DopplerRadar.geo_velocity`:
`transform · (topo_velocity + angular_velocity × geo_position)`. -/
def DopplerRadar.geo_velocity (d : DopplerRadar) : Fin 3 → ℝ :=
  mulVec3 d.transform (d.topo_velocity + cross3 d.angular_velocity d.geo_position)

end

/-! Embeddings of the `Elements` and `DetermineElements` classes of
`orbits/astro/vectors.py`. -/

noncomputable section

/-- Source `afunc.semi_latus_rectum`: `h**2/μ` for a scalar angular-momentum
magnitude. -/
def semi_latus_rectum (specific_angular_momentum_magnitude gravitational_parameter : ℝ) : ℝ :=
  specific_angular_momentum_magnitude ^ 2 / gravitational_parameter

/-- Source class `vectors.Elements`.  The `raw` fields are the Python
underscore attributes stored by `__init__`. -/
structure Elements where
  semi_latus_rectum : ℝ
  eccentricity : ℝ
  inclination_raw : ℝ
  longitude_of_ascending_node_raw : ℝ
  periapsis_angle_raw : ℝ
  epoch_angle_raw : ℝ
  gravitational_parameter : ℝ
  degrees : Bool

/-- Source private method `Elements.__deg`. -/
def Elements.deg (E : Elements) (attr : ℝ) : ℝ :=
  if E.degrees then attr * π / 180 else attr

/-- Source property `Elements.inclination`. -/
def Elements.inclination (E : Elements) : ℝ := E.deg E.inclination_raw

/-- Source property `Elements.longitude_of_ascending_node`. -/
def Elements.longitude_of_ascending_node (E : Elements) : ℝ :=
  E.deg E.longitude_of_ascending_node_raw

/-- Source property `Elements.periapsis_angle`. -/
def Elements.periapsis_angle (E : Elements) : ℝ := E.deg E.periapsis_angle_raw

/-- Source property `Elements.epoch_angle`. -/
def Elements.epoch_angle (E : Elements) : ℝ := E.deg E.epoch_angle_raw

/-- Source private method `Elements.__vector_conditions`: the four-way
branch on `(eccentricity != 0, sin(inclination) != 0)` choosing which
perifocal→geocentric transformation to apply. -/
def Elements.vector_conditions (E : Elements) (vector : Fin 3 → ℝ) : Fin 3 → ℝ :=
  if E.eccentricity ≠ 0 ∧ Real.sin E.inclination ≠ 0 then
    mulVec3 (peri_to_geo E.inclination E.longitude_of_ascending_node E.periapsis_angle) vector
  else if E.eccentricity ≠ 0 ∧ Real.sin E.inclination = 0 then
    mulVec3 (peri_to_geo_i E.periapsis_angle) vector
  else if E.eccentricity = 0 ∧ Real.sin E.inclination ≠ 0 then
    mulVec3 (peri_to_geo_e E.inclination E.longitude_of_ascending_node) vector
  else vector

/-- Source property `Elements.position`: perifocal position of magnitude
`orbital_radius(p, e, ν)`, then `__vector_conditions`. -/
def Elements.position (E : Elements) : Fin 3 → ℝ :=
  let position_magnitude :=
    orbital_radius E.semi_latus_rectum E.eccentricity E.epoch_angle
  E.vector_conditions
    (position_magnitude • ![Real.cos E.epoch_angle, Real.sin E.epoch_angle, 0])

/-- Source property `Elements.velocity`: perifocal velocity of magnitude
`(μ/p)**0.5`, then `__vector_conditions`.  The square root is taken real;
the claims below only use `μ > 0`, `p > 0`, where Python agrees. -/
def Elements.velocity (E : Elements) : Fin 3 → ℝ :=
  let velocity_magnitude :=
    Real.sqrt (E.gravitational_parameter / E.semi_latus_rectum)
  E.vector_conditions
    (velocity_magnitude •
      ![-Real.sin E.epoch_angle, E.eccentricity + Real.cos E.epoch_angle, 0])

/-- Source class `vectors.DetermineElements` (constructor attributes). -/
structure DetermineElements where
  position_vector : Fin 3 → ℝ
  velocity_vector : Fin 3 → ℝ
  gravitational_parameter : ℝ

/-- Source property `DetermineElements.position_magnitude`. -/
def DetermineElements.position_magnitude (D : DetermineElements) : ℝ :=
  norm3 D.position_vector

/-- Source property `DetermineElements.velocity_magnitude`. -/
def DetermineElements.velocity_magnitude (D : DetermineElements) : ℝ :=
  norm3 D.velocity_vector

/-- Source property `DetermineElements.specific_angular_momentum_vector`. -/
def DetermineElements.specific_angular_momentum_vector (D : DetermineElements) : Fin 3 → ℝ :=
  angular_momentum D.position_vector D.velocity_vector

/-- Source property `DetermineElements.specific_angular_momentum_magnitude`. -/
def DetermineElements.specific_angular_momentum_magnitude (D : DetermineElements) : ℝ :=
  norm3 D.specific_angular_momentum_vector

/-- Source property `DetermineElements.node_vector`. -/
def DetermineElements.node_vector (D : DetermineElements) : Fin 3 → ℝ :=
  Orbits.node_vector D.specific_angular_momentum_vector

/-- Source property `DetermineElements.node_magnitude`. -/
def DetermineElements.node_magnitude (D : DetermineElements) : ℝ := norm3 D.node_vector

/-- Source property `DetermineElements.eccentricity_vector`. -/
def DetermineElements.eccentricity_vector (D : DetermineElements) : Fin 3 → ℝ :=
  Orbits.eccentricity_vector D.position_vector D.velocity_vector D.gravitational_parameter
    D.position_magnitude D.velocity_magnitude

/-- Source property `DetermineElements.eccentricity`. -/
def DetermineElements.eccentricity (D : DetermineElements) : ℝ :=
  norm3 D.eccentricity_vector

/-- Source property `DetermineElements.semi_latus_rectum`: the Python passes
the angular-momentum VECTOR where `afunc.semi_latus_rectum` expects the
magnitude, and numpy broadcasts `vector**2/μ` elementwise, so the property
returns the array `(h_x², h_y², h_z²)/μ` instead of the scalar `h²/μ`. -/
def DetermineElements.semi_latus_rectum (D : DetermineElements) : Fin 3 → ℝ :=
  fun j =>
    Orbits.semi_latus_rectum (D.specific_angular_momentum_vector j) D.gravitational_parameter

/-- Source property `DetermineElements.inclination` (with the `None`
degeneracy sentinel). -/
def DetermineElements.inclination (D : DetermineElements) : Option ℝ :=
  if D.specific_angular_momentum_magnitude = 0 then none
  else some (Real.arccos (dot3 D.specific_angular_momentum_vector ![0, 0, 1] /
    D.specific_angular_momentum_magnitude))

/-- Source property `DetermineElements.longitude_of_ascending_node`. -/
def DetermineElements.longitude_of_ascending_node (D : DetermineElements) : Option ℝ :=
  if D.node_magnitude = 0 then none
  else some (Real.arccos (dot3 D.node_vector ![1, 0, 0] / D.node_magnitude))

/-- Source property `DetermineElements.argument_of_periapsis`. -/
def DetermineElements.argument_of_periapsis (D : DetermineElements) : Option ℝ :=
  if D.node_magnitude = 0 ∨ D.eccentricity = 0 then none
  else some (Real.arccos (dot3 D.node_vector D.eccentricity_vector /
    (D.node_magnitude * D.eccentricity)))

/-- Source property `DetermineElements.true_anomaly`. -/
def DetermineElements.true_anomaly (D : DetermineElements) : Option ℝ :=
  if D.eccentricity = 0 ∨ D.position_magnitude = 0 then none
  else some (Real.arccos (dot3 D.eccentricity_vector D.position_vector /
    (D.eccentricity * D.position_magnitude)))

end

/-- Branch lemma for `__vector_conditions`: general rotation case. -/
lemma Elements.vector_conditions_ne_ne (E : Elements) (v : Fin 3 → ℝ)
    (he : E.eccentricity ≠ 0) (hs : Real.sin E.inclination ≠ 0) :
    E.vector_conditions v =
      mulVec3 (peri_to_geo E.inclination E.longitude_of_ascending_node E.periapsis_angle) v := by
  simp [Elements.vector_conditions, he, hs]

/-- Branch lemma for `__vector_conditions`: equatorial elliptical case. -/
lemma Elements.vector_conditions_ne_eq (E : Elements) (v : Fin 3 → ℝ)
    (he : E.eccentricity ≠ 0) (hs : Real.sin E.inclination = 0) :
    E.vector_conditions v = mulVec3 (peri_to_geo_i E.periapsis_angle) v := by
  simp [Elements.vector_conditions, he, hs]

/-- Branch lemma for `__vector_conditions`: inclined circular case. -/
lemma Elements.vector_conditions_eq_ne (E : Elements) (v : Fin 3 → ℝ)
    (he : E.eccentricity = 0) (hs : Real.sin E.inclination ≠ 0) :
    E.vector_conditions v =
      mulVec3 (peri_to_geo_e E.inclination E.longitude_of_ascending_node) v := by
  simp [Elements.vector_conditions, he, hs]

/-- Branch lemma for `__vector_conditions`: circular equatorial case. -/
lemma Elements.vector_conditions_eq_eq (E : Elements) (v : Fin 3 → ℝ)
    (he : E.eccentricity = 0) (hs : Real.sin E.inclination = 0) :
    E.vector_conditions v = v := by
  simp [Elements.vector_conditions, he, hs]

/-! Algebraic facts about the 3-vector model and the perifocal→geocentric
rotation, used for the round-trip analysis. -/

/-- Bilinearity of `dot3` (right argument, two-term combination). -/
lemma dot3_lin_right (u v w : Fin 3 → ℝ) (a b : ℝ) :
    dot3 u (fun k => a * v k + b * w k) = a * dot3 u v + b * dot3 u w := by
  simp only [dot3]
  ring

/-- Scaling in the left argument of `cross3`. -/
lemma cross3_smul_left (a : ℝ) (u v : Fin 3 → ℝ) :
    cross3 (a • u) v = a • cross3 u v := by
  funext j
  fin_cases j <;> simp [cross3, Matrix.vecHead, Matrix.vecTail] <;> ring

/-- Scaling in the right argument of `cross3`. -/
lemma cross3_smul_right (a : ℝ) (u v : Fin 3 → ℝ) :
    cross3 u (a • v) = a • cross3 u v := by
  funext j
  fin_cases j <;> simp [cross3, Matrix.vecHead, Matrix.vecTail] <;> ring

/-- Matrix–vector products commute with scaling. -/
lemma mulVec3_smul (M : Fin 3 → Fin 3 → ℝ) (a : ℝ) (v : Fin 3 → ℝ) :
    mulVec3 M (a • v) = a • mulVec3 M v := by
  funext j
  fin_cases j <;>
    simp [mulVec3, dot3, Matrix.vecHead, Matrix.vecTail] <;> ring

/-- Scaling in the left argument of `dot3`. -/
lemma dot3_smul_left (a : ℝ) (u v : Fin 3 → ℝ) : dot3 (a • u) v = a * dot3 u v := by
  simp [dot3]
  ring

/-- Scaling in the right argument of `dot3`. -/
lemma dot3_smul_right (a : ℝ) (u v : Fin 3 → ℝ) : dot3 u (a • v) = a * dot3 u v := by
  simp [dot3]
  ring

/-- Convexity of the squared norm: `dot3 v v` is a sum of squares. -/
lemma dot3_self_nonneg (v : Fin 3 → ℝ) : 0 ≤ dot3 v v := by
  simp only [dot3]
  nlinarith [sq_nonneg (v 0), sq_nonneg (v 1), sq_nonneg (v 2)]

/-- Squared `norm3` recovers `dot3`. -/
lemma norm3_sq (v : Fin 3 → ℝ) : norm3 v ^ 2 = dot3 v v :=
  Real.sq_sqrt (dot3_self_nonneg v)

/-- `norm3` of a scaled vector. -/
lemma norm3_smul (a : ℝ) (v : Fin 3 → ℝ) : norm3 (a • v) = |a| * norm3 v := by
  rw [norm3, norm3, show dot3 (a • v) (a • v) = a ^ 2 * dot3 v v by
    simp [dot3]; ring]
  rw [Real.sqrt_mul (sq_nonneg a), Real.sqrt_sq_eq_abs]

/-- The `rotate_z` matrix preserves `dot3`. -/
lemma dot3_mulVec3_rotZ (θ : ℝ) (u v : Fin 3 → ℝ) :
    dot3 (mulVec3 (rotate_z θ) u) (mulVec3 (rotate_z θ) v) = dot3 u v := by
  simp only [mulVec3, dot3, rotate_z, Matrix.cons_val_zero, Matrix.cons_val_one,
    Matrix.cons_val_two, Matrix.vecHead, Matrix.vecTail, Matrix.cons_val_fin_one,
    Function.comp_apply, Fin.succ_zero_eq_one]
  linear_combination (u 0 * v 0 + u 1 * v 1) * Real.sin_sq_add_cos_sq θ

/-- The `rotate_x` matrix preserves `dot3`. -/
lemma dot3_mulVec3_rotX (θ : ℝ) (u v : Fin 3 → ℝ) :
    dot3 (mulVec3 (rotate_x θ) u) (mulVec3 (rotate_x θ) v) = dot3 u v := by
  simp only [mulVec3, dot3, rotate_x, Matrix.cons_val_zero, Matrix.cons_val_one,
    Matrix.cons_val_two, Matrix.vecHead, Matrix.vecTail, Matrix.cons_val_fin_one,
    Function.comp_apply, Fin.succ_zero_eq_one]
  linear_combination (u 1 * v 1 + u 2 * v 2) * Real.sin_sq_add_cos_sq θ

/-- The `rotate_z` matrix intertwines with `cross3` (rotations of
determinant one preserve cross products). -/
lemma cross3_mulVec3_rotZ (θ : ℝ) (u v : Fin 3 → ℝ) :
    cross3 (mulVec3 (rotate_z θ) u) (mulVec3 (rotate_z θ) v) =
      mulVec3 (rotate_z θ) (cross3 u v) := by
  funext j
  fin_cases j
  · simp [mulVec3, dot3, cross3, rotate_z, Matrix.vecHead, Matrix.vecTail]
    ring
  · simp [mulVec3, dot3, cross3, rotate_z, Matrix.vecHead, Matrix.vecTail]
    ring
  · simp [mulVec3, dot3, cross3, rotate_z, Matrix.vecHead, Matrix.vecTail]
    linear_combination (u 0 * v 1 - u 1 * v 0) * Real.sin_sq_add_cos_sq θ

/-- The `rotate_x` matrix intertwines with `cross3`. -/
lemma cross3_mulVec3_rotX (θ : ℝ) (u v : Fin 3 → ℝ) :
    cross3 (mulVec3 (rotate_x θ) u) (mulVec3 (rotate_x θ) v) =
      mulVec3 (rotate_x θ) (cross3 u v) := by
  funext j
  fin_cases j
  · simp [mulVec3, dot3, cross3, rotate_x, Matrix.vecHead, Matrix.vecTail]
    linear_combination (u 1 * v 2 - u 2 * v 1) * Real.sin_sq_add_cos_sq θ
  · simp [mulVec3, dot3, cross3, rotate_x, Matrix.vecHead, Matrix.vecTail]
    ring
  · simp [mulVec3, dot3, cross3, rotate_x, Matrix.vecHead, Matrix.vecTail]
    ring

/-- The general perifocal→geocentric matrix is the 3-1-3 rotation
`rotate_z Ω · rotate_x i · rotate_z ω`, acting on vectors. -/
lemma mulVec3_peri_to_geo_decomp (i Ω ω : ℝ) (v : Fin 3 → ℝ) :
    mulVec3 (peri_to_geo i Ω ω) v =
      mulVec3 (rotate_z Ω) (mulVec3 (rotate_x i) (mulVec3 (rotate_z ω) v)) := by
  funext j
  fin_cases j <;>
    · simp [mulVec3, dot3, peri_to_geo, rotate_z, rotate_x, Matrix.vecHead, Matrix.vecTail]
      ring

/-- The perifocal→geocentric matrix preserves `dot3`. -/
lemma dot3_mulVec3_peri (i Ω ω : ℝ) (u v : Fin 3 → ℝ) :
    dot3 (mulVec3 (peri_to_geo i Ω ω) u) (mulVec3 (peri_to_geo i Ω ω) v) = dot3 u v := by
  rw [mulVec3_peri_to_geo_decomp, mulVec3_peri_to_geo_decomp, dot3_mulVec3_rotZ,
    dot3_mulVec3_rotX, dot3_mulVec3_rotZ]

/-- The perifocal→geocentric matrix intertwines with `cross3`. -/
lemma cross3_mulVec3_peri (i Ω ω : ℝ) (u v : Fin 3 → ℝ) :
    cross3 (mulVec3 (peri_to_geo i Ω ω) u) (mulVec3 (peri_to_geo i Ω ω) v) =
      mulVec3 (peri_to_geo i Ω ω) (cross3 u v) := by
  rw [mulVec3_peri_to_geo_decomp, mulVec3_peri_to_geo_decomp, cross3_mulVec3_rotZ,
    cross3_mulVec3_rotX, cross3_mulVec3_rotZ, mulVec3_peri_to_geo_decomp]

/-- Indexing a matrix–vector product: row `j` dotted with the vector. -/
lemma mulVec3_apply (M : Fin 3 → Fin 3 → ℝ) (v : Fin 3 → ℝ) (j : Fin 3) :
    mulVec3 M v j = dot3 (M j) v := by
  fin_cases j <;> simp [mulVec3]

/-- Cross product with the third basis vector on the left. -/
lemma cross3_e3_left (w : Fin 3 → ℝ) : cross3 ![0, 0, 1] w = ![-(w 1), w 0, 0] := by
  funext j
  fin_cases j <;> simp [cross3, Matrix.vecHead, Matrix.vecTail]

/-- The element-generated position vector, in rotated-perifocal form (general
branch: `e ≠ 0`, `sin i ≠ 0`). -/
lemma elements_state_pos (p e i Ω ω ν μ : ℝ) (he : e ≠ 0) (hs : Real.sin i ≠ 0) :
    (Elements.mk p e i Ω ω ν μ false).position =
      mulVec3 (peri_to_geo i Ω ω)
        (orbital_radius p e ν • ![Real.cos ν, Real.sin ν, 0]) := by
  have he' : (Elements.mk p e i Ω ω ν μ false).eccentricity ≠ 0 := he
  have hs' : Real.sin (Elements.mk p e i Ω ω ν μ false).inclination ≠ 0 := by
    simpa [Elements.inclination, Elements.deg] using hs
  rw [Elements.position, Elements.vector_conditions_ne_ne _ _ he' hs']
  simp [Elements.inclination, Elements.longitude_of_ascending_node, Elements.periapsis_angle,
    Elements.epoch_angle, Elements.deg]

/-- The element-generated velocity vector, in rotated-perifocal form (general
branch: `e ≠ 0`, `sin i ≠ 0`). -/
lemma elements_state_vel (p e i Ω ω ν μ : ℝ) (he : e ≠ 0) (hs : Real.sin i ≠ 0) :
    (Elements.mk p e i Ω ω ν μ false).velocity =
      mulVec3 (peri_to_geo i Ω ω)
        (Real.sqrt (μ / p) • ![-Real.sin ν, e + Real.cos ν, 0]) := by
  have he' : (Elements.mk p e i Ω ω ν μ false).eccentricity ≠ 0 := he
  have hs' : Real.sin (Elements.mk p e i Ω ω ν μ false).inclination ≠ 0 := by
    simpa [Elements.inclination, Elements.deg] using hs
  rw [Elements.velocity, Elements.vector_conditions_ne_ne _ _ he' hs']
  simp [Elements.inclination, Elements.longitude_of_ascending_node, Elements.periapsis_angle,
    Elements.epoch_angle, Elements.deg]

/-- Third column of the perifocal→geocentric matrix (image of the orbit
normal). -/
lemma peri_to_geo_col3 (i Ω ω : ℝ) :
    mulVec3 (peri_to_geo i Ω ω) ![0, 0, 1] =
      ![Real.sin Ω * Real.sin i, -(Real.cos Ω * Real.sin i), Real.cos i] := by
  funext j
  fin_cases j <;>
    simp [mulVec3, dot3, peri_to_geo, Matrix.vecHead, Matrix.vecTail]

/-- First column of the perifocal→geocentric matrix (image of the periapsis
direction). -/
lemma peri_to_geo_col1 (i Ω ω : ℝ) :
    mulVec3 (peri_to_geo i Ω ω) ![1, 0, 0] =
      ![Real.cos Ω * Real.cos ω - Real.sin Ω * Real.sin ω * Real.cos i,
        Real.sin Ω * Real.cos ω + Real.cos Ω * Real.sin ω * Real.cos i,
        Real.sin ω * Real.sin i] := by
  funext j
  fin_cases j <;>
    simp [mulVec3, dot3, peri_to_geo, Matrix.vecHead, Matrix.vecTail]

/-- Scalar identity behind the periapsis component of the eccentricity
vector of an element-generated state. -/
lemma evec_s1 (μ p R e cν sν vm : ℝ) (hμ : μ ≠ 0) (hR : R ≠ 0)
    (hpyth : sν ^ 2 + cν ^ 2 = 1) (hvm : vm ^ 2 * p = μ) (hRp : R * (1 + e * cν) = p) :
    (vm ^ 2 * (sν ^ 2 + (e + cν) ^ 2) - μ / R) / μ * R * cν +
      -(R * vm * (e * sν) / μ) * vm * -sν = e * 1 := by
  field_simp
  linear_combination vm ^ 2 * R * (cν + e) * R * hpyth + (cν + e) * R * hvm +
    vm ^ 2 * (cν + e) * R * hRp +
    (μ - 1) * R * (e + cν) * hvm + (μ - 1) * vm ^ 2 * R * (e + cν) * hRp +
    (μ - 1) * vm ^ 2 * R ^ 2 * (e + cν) * hpyth

/-- Scalar identity behind the transverse component of the eccentricity
vector of an element-generated state (it vanishes). -/
lemma evec_s2 (μ p R e cν sν vm : ℝ) (hμ : μ ≠ 0) (hR : R ≠ 0)
    (hpyth : sν ^ 2 + cν ^ 2 = 1) (hvm : vm ^ 2 * p = μ) (hRp : R * (1 + e * cν) = p) :
    (vm ^ 2 * (sν ^ 2 + (e + cν) ^ 2) - μ / R) / μ * R * sν +
      -(R * vm * (e * sν) / μ) * vm * (e + cν) = e * 0 := by
  field_simp
  linear_combination sν * R * hvm + vm ^ 2 * sν * R * hRp + vm ^ 2 * R * sν * R * hpyth +
    (μ - 1) * R * sν * hvm + (μ - 1) * vm ^ 2 * R * sν * hRp +
    (μ - 1) * vm ^ 2 * R ^ 2 * sν * hpyth

/-- The position magnitude of an element-generated state is the orbital
radius. -/
lemma roundtrip_posmag (p e i Ω ω ν μ : ℝ) (hp : 0 < p) (he : e ≠ 0)
    (hs : Real.sin i ≠ 0) (hden : 0 < 1 + e * Real.cos ν) :
    norm3 (Elements.mk p e i Ω ω ν μ false).position = orbital_radius p e ν := by
  have hRpos : 0 < orbital_radius p e ν := by
    rw [orbital_radius]; positivity
  rw [elements_state_pos p e i Ω ω ν μ he hs, norm3, dot3_mulVec3_peri, dot3_smul_left,
    dot3_smul_right,
    show dot3 ![Real.cos ν, Real.sin ν, 0] ![Real.cos ν, Real.sin ν, 0] = 1 by
      simp [dot3]; linear_combination Real.sin_sq_add_cos_sq ν,
    show orbital_radius p e ν * (orbital_radius p e ν * 1) = orbital_radius p e ν ^ 2 by ring]
  exact Real.sqrt_sq hRpos.le

/-- The angular momentum of an element-generated state is `p·√(μ/p)` times
the rotated orbit normal. -/
lemma roundtrip_h (p e i Ω ω ν μ : ℝ) (he : e ≠ 0) (hs : Real.sin i ≠ 0)
    (hden : (1 : ℝ) + e * Real.cos ν ≠ 0) :
    angular_momentum (Elements.mk p e i Ω ω ν μ false).position
        (Elements.mk p e i Ω ω ν μ false).velocity =
      (p * Real.sqrt (μ / p)) • mulVec3 (peri_to_geo i Ω ω) ![0, 0, 1] := by
  rw [angular_momentum, elements_state_pos p e i Ω ω ν μ he hs,
    elements_state_vel p e i Ω ω ν μ he hs, cross3_mulVec3_peri, cross3_smul_left,
    cross3_smul_right,
    show cross3 ![Real.cos ν, Real.sin ν, 0] ![-Real.sin ν, e + Real.cos ν, 0] =
        (1 + e * Real.cos ν) • ![0, 0, 1] by
      funext j
      fin_cases j <;>
        simp [cross3, Matrix.vecHead, Matrix.vecTail, Pi.smul_apply, smul_eq_mul];
        linear_combination Real.sin_sq_add_cos_sq ν]
  rw [smul_smul, smul_smul, mulVec3_smul]
  congr 1
  rw [orbital_radius]
  field_simp

/-- The eccentricity vector of an element-generated state is `e` times the
rotated periapsis direction. -/
lemma roundtrip_evec (p e i Ω ω ν μ : ℝ) (hμ : 0 < μ) (hp : 0 < p) (he : e ≠ 0)
    (hs : Real.sin i ≠ 0) (hden : 0 < 1 + e * Real.cos ν) :
    Orbits.eccentricity_vector (Elements.mk p e i Ω ω ν μ false).position
        (Elements.mk p e i Ω ω ν μ false).velocity μ
        (norm3 (Elements.mk p e i Ω ω ν μ false).position)
        (norm3 (Elements.mk p e i Ω ω ν μ false).velocity) =
      e • mulVec3 (peri_to_geo i Ω ω) ![1, 0, 0] := by
  have hRpos : 0 < orbital_radius p e ν := by rw [orbital_radius]; positivity
  have hRp : orbital_radius p e ν * (1 + e * Real.cos ν) = p := by
    rw [orbital_radius]; field_simp
  have hvm2 : Real.sqrt (μ / p) ^ 2 * p = μ := by
    rw [Real.sq_sqrt (by positivity : (0 : ℝ) ≤ μ / p)]
    field_simp
  have hpm := roundtrip_posmag p e i Ω ω ν μ hp he hs hden
  have hvd : norm3 (Elements.mk p e i Ω ω ν μ false).velocity ^ 2 =
      Real.sqrt (μ / p) ^ 2 * (Real.sin ν ^ 2 + (e + Real.cos ν) ^ 2) := by
    rw [elements_state_vel p e i Ω ω ν μ he hs, norm3_sq, dot3_mulVec3_peri, dot3_smul_left,
      dot3_smul_right,
      show dot3 ![-Real.sin ν, e + Real.cos ν, 0] ![-Real.sin ν, e + Real.cos ν, 0] =
          Real.sin ν ^ 2 + (e + Real.cos ν) ^ 2 by simp [dot3]; ring]
    ring
  have hdotrv : dot3 (Elements.mk p e i Ω ω ν μ false).position
      (Elements.mk p e i Ω ω ν μ false).velocity =
      orbital_radius p e ν * Real.sqrt (μ / p) * (e * Real.sin ν) := by
    rw [elements_state_pos p e i Ω ω ν μ he hs, elements_state_vel p e i Ω ω ν μ he hs,
      dot3_mulVec3_peri, dot3_smul_left, dot3_smul_right,
      show dot3 ![Real.cos ν, Real.sin ν, 0] ![-Real.sin ν, e + Real.cos ν, 0] =
          e * Real.sin ν by simp [dot3]; ring]
    ring
  funext j
  simp only [Orbits.eccentricity_vector]
  rw [hvd, hpm, hdotrv]
  rw [elements_state_pos p e i Ω ω ν μ he hs, elements_state_vel p e i Ω ω ν μ he hs]
  rw [mulVec3_apply, mulVec3_apply, dot3_smul_right, dot3_smul_right]
  have hstep : (1 : ℝ) / μ *
      ((Real.sqrt (μ / p) ^ 2 * (Real.sin ν ^ 2 + (e + Real.cos ν) ^ 2) -
          μ / orbital_radius p e ν) *
          (orbital_radius p e ν *
            dot3 (peri_to_geo i Ω ω j) ![Real.cos ν, Real.sin ν, 0]) -
        orbital_radius p e ν * Real.sqrt (μ / p) * (e * Real.sin ν) *
          (Real.sqrt (μ / p) *
            dot3 (peri_to_geo i Ω ω j) ![-Real.sin ν, e + Real.cos ν, 0])) =
      dot3 (peri_to_geo i Ω ω j)
        (fun k =>
          ((Real.sqrt (μ / p) ^ 2 * (Real.sin ν ^ 2 + (e + Real.cos ν) ^ 2) -
              μ / orbital_radius p e ν) / μ * orbital_radius p e ν) *
            ![Real.cos ν, Real.sin ν, 0] k +
          (-(orbital_radius p e ν * Real.sqrt (μ / p) * (e * Real.sin ν) / μ) *
              Real.sqrt (μ / p)) *
            ![-Real.sin ν, e + Real.cos ν, 0] k) := by
    rw [dot3_lin_right]
    ring
  rw [hstep,
    show (fun k =>
          ((Real.sqrt (μ / p) ^ 2 * (Real.sin ν ^ 2 + (e + Real.cos ν) ^ 2) -
              μ / orbital_radius p e ν) / μ * orbital_radius p e ν) *
            ![Real.cos ν, Real.sin ν, 0] k +
          (-(orbital_radius p e ν * Real.sqrt (μ / p) * (e * Real.sin ν) / μ) *
              Real.sqrt (μ / p)) *
            ![-Real.sin ν, e + Real.cos ν, 0] k) = e • ![1, 0, 0] by
      funext k
      fin_cases k
      · simpa [Matrix.vecHead, Matrix.vecTail] using
          evec_s1 μ p (orbital_radius p e ν) e (Real.cos ν) (Real.sin ν) (Real.sqrt (μ / p))
            hμ.ne' hRpos.ne' (Real.sin_sq_add_cos_sq ν) hvm2 hRp
      · simpa [Matrix.vecHead, Matrix.vecTail] using
          evec_s2 μ p (orbital_radius p e ν) e (Real.cos ν) (Real.sin ν) (Real.sqrt (μ / p))
            hμ.ne' hRpos.ne' (Real.sin_sq_add_cos_sq ν) hvm2 hRp
      · simp [Matrix.vecHead, Matrix.vecTail],
    dot3_smul_right, Pi.smul_apply, smul_eq_mul, mulVec3_apply]

/-- Python `abs` is never negative. -/
lemma pyAbs_nonneg (z : Cx) : 0 ≤ pyAbs z := Real.sqrt_nonneg _

/-- The real part of Python `x ** 0.5` for real `x` is never negative. -/
lemma pypowHalf_fst_nonneg (x : ℝ) : 0 ≤ (pypowHalf x).1 := by
  rw [pypowHalf]
  split <;> simp [Real.sqrt_nonneg]

/-- The real part of the principal complex square root is never negative. -/
lemma pySqrt_fst_nonneg (z : Cx) : 0 ≤ (pySqrt z).1 := by
  rw [pySqrt]
  split
  · exact pypowHalf_fst_nonneg _
  · exact Real.sqrt_nonneg _

/-- The Δv magnitude helper of `maneuvers.py` is never negative. -/
lemma delta_v_nonneg (radius a μ : ℝ) : 0 ≤ delta_v radius a μ := pyAbs_nonneg _

/-! Embeddings of the universal-variable solvers of `orbits/astro/afunc.py`:
`kepler_problem` and `gauss_problem`.  Both sources repeat the same
Stumpff-function branches (on the sign of the iteration variable), embedded
once as `stumpff_c` / `stumpff_s`.  The unbounded `while True` loops become
fuel recursion; exhausted fuel is `noConvergence`, distinct from the
source's raise. -/

noncomputable section

/-- Stumpff-like `C`: the three-way branch `z = 0` / `z > 0` / `z < 0`
shared verbatim by `kepler_problem` and `gauss_problem`. -/
def stumpff_c (z : ℝ) : ℝ :=
  if z = 0 then 1 / 2
  else if 0 < z then (1 - Real.cos (Real.sqrt z)) / z
  else (1 - Real.cosh (Real.sqrt (-z))) / z

/-- Stumpff-like `S`: the three-way branch shared by both solvers
(`z**(3/2)` is `(√z)³` for `z > 0`, and `((-z)**3)**0.5` is `√((-z)³)`). -/
def stumpff_s (z : ℝ) : ℝ :=
  if z = 0 then 1 / 6
  else if 0 < z then (Real.sqrt z - Real.sin (Real.sqrt z)) / Real.sqrt z ^ 3
  else (Real.sinh (Real.sqrt (-z)) - Real.sqrt (-z)) / Real.sqrt ((-z) ^ 3)

/-- Error outcomes of `gauss_problem`: the source's `y < 0` raise, or fuel
exhaustion standing in for the unbounded loop never converging. -/
inductive GaussErr where
  | yNegative : GaussErr
  | noConvergence : GaussErr
deriving DecidableEq

/-- Return value of `gauss_problem`: the two velocities and the final
universal variable. -/
structure GaussResult where
  initial_velocity : Fin 3 → ℝ
  final_velocity : Fin 3 → ℝ
  universal_variable : ℝ

/-- Source `gauss_problem` preprocessing: the constant `a`, combining the
direction of motion `np.sign(π−θ)` (short) or `np.sign(θ−π)` (long) with
`sqrt(r1·r2·(1+cos θ))`. -/
def gauss_a (initial_position final_position : Fin 3 → ℝ) (short : Bool) : ℝ :=
  let initial_magnitude := norm3 initial_position
  let final_magnitude := norm3 final_position
  let theta := Real.arccos (dot3 initial_position final_position /
    (initial_magnitude * final_magnitude))
  let direction_of_motion :=
    if short then Real.sign (π - theta) else Real.sign (theta - π)
  direction_of_motion *
    Real.sqrt (initial_magnitude * final_magnitude * (1 + Real.cos theta))

/-- Source `gauss_problem` loop quantity `y`. -/
def gauss_y (initial_magnitude final_magnitude a z : ℝ) : ℝ :=
  initial_magnitude + final_magnitude -
    a * (1 - z * stumpff_s z) / Real.sqrt (stumpff_c z)

/-- Source `gauss_problem` loop quantity `x` (computed only when `y ≥ 0`). -/
def gauss_x (initial_magnitude final_magnitude a z : ℝ) : ℝ :=
  Real.sqrt (gauss_y initial_magnitude final_magnitude a z / stumpff_c z)

/-- Source `gauss_problem` loop quantity `t`. -/
def gauss_t (initial_magnitude final_magnitude a μ z : ℝ) : ℝ :=
  (1 / Real.sqrt μ) * (gauss_x initial_magnitude final_magnitude a z ^ 3 * stumpff_s z +
    a * Real.sqrt (gauss_y initial_magnitude final_magnitude a z))

/-- Source `gauss_problem` Newton slope `dt/dz` (with the `z = 0` Maclaurin
values for `dc/dz`, `ds/dz`, and the source's exact grouping). -/
def gauss_dtdz (initial_magnitude final_magnitude a μ z : ℝ) : ℝ :=
  let c := stumpff_c z
  let s := stumpff_s z
  let dcdz := if z = 0 then 1 / 24 else (1 - z * s - 2 * c) / (2 * z)
  let dsdz := if z = 0 then 1 / 120 else (c - 3 * s) / (2 * z)
  Real.sqrt (1 / μ) *
    (gauss_x initial_magnitude final_magnitude a z ^ 3 * (dsdz - 3 * s * dcdz / 2 * c) +
      a / 8 * (3 * s * Real.sqrt (gauss_y initial_magnitude final_magnitude a z) / c +
        a / gauss_x initial_magnitude final_magnitude a z))

/-- Source `gauss_problem` iteration: raises `yNegative` as soon as the
current `y` is negative (`np.sign(y) >= 0` fails); on convergence returns
the final `(z, y)` pair used by the epilogue; the short path increments `z`
and the long path decrements it. -/
def gauss_loop (initial_magnitude final_magnitude a flight_time uncertainty μ : ℝ)
    (short : Bool) : ℕ → ℝ → Except GaussErr (ℝ × ℝ)
  | 0, _ => Except.error GaussErr.noConvergence
  | fuel + 1, z =>
    let y := gauss_y initial_magnitude final_magnitude a z
    if 0 ≤ Real.sign y then
      let t := gauss_t initial_magnitude final_magnitude a μ z
      if flight_time - uncertainty < t ∧ t < flight_time + uncertainty then
        Except.ok (z, y)
      else
        let dtdz := gauss_dtdz initial_magnitude final_magnitude a μ z
        gauss_loop initial_magnitude final_magnitude a flight_time uncertainty μ short fuel
          (if short then z + (flight_time - t) / dtdz else z - (flight_time - t) / dtdz)
    else Except.error GaussErr.yNegative

/-- Source `afunc.gauss_problem`: preprocessing, the Newton loop, and the
epilogue computing the two velocities from the final `y`. -/
def gauss_problem (initial_position final_position : Fin 3 → ℝ)
    (flight_time trial_variable uncertainty μ : ℝ) (short : Bool) (fuel : ℕ) :
    Except GaussErr GaussResult :=
  let initial_magnitude := norm3 initial_position
  let final_magnitude := norm3 final_position
  let a := gauss_a initial_position final_position short
  match gauss_loop initial_magnitude final_magnitude a flight_time uncertainty μ short fuel
      trial_variable with
  | Except.error err => Except.error err
  | Except.ok (z, y) =>
    let f := 1 - y / initial_magnitude
    let g := a * Real.sqrt (y / μ)
    let dgdt := 1 - y / final_magnitude
    Except.ok
      ⟨fun j => (final_position j - f * initial_position j) / g,
       fun j => (dgdt * final_position j - initial_position j) / g, z⟩

/-- Source `kepler_problem` preprocessing: the reciprocal semi-major axis
`-(v² - 2μ/r)/μ`. -/
def kepler_alpha (position_vector velocity_vector : Fin 3 → ℝ)
    (gravitational_parameter : ℝ) : ℝ :=
  -(norm3 velocity_vector ^ 2 -
      2 * gravitational_parameter / norm3 position_vector) / gravitational_parameter

/-- Source `kepler_problem` loop quantity `t` at universal variable `x`
(with `z = α·x²` and the shared Stumpff branches). -/
def kepler_t (position_vector velocity_vector : Fin 3 → ℝ)
    (gravitational_parameter x : ℝ) : ℝ :=
  let alpha := kepler_alpha position_vector velocity_vector gravitational_parameter
  let z := alpha * x ^ 2
  dot3 position_vector velocity_vector * x ^ 2 * stumpff_c z / gravitational_parameter +
    (1 - norm3 position_vector * alpha) * x ^ 3 * stumpff_s z /
      Real.sqrt gravitational_parameter +
    norm3 position_vector * x / Real.sqrt gravitational_parameter

/-- Source `kepler_problem` Newton slope `dt/dx` at universal variable `x`. -/
def kepler_dtdx (position_vector velocity_vector : Fin 3 → ℝ)
    (gravitational_parameter x : ℝ) : ℝ :=
  let alpha := kepler_alpha position_vector velocity_vector gravitational_parameter
  let z := alpha * x ^ 2
  x ^ 2 * stumpff_c z / Real.sqrt gravitational_parameter +
    dot3 position_vector velocity_vector * x * (1 - z * stumpff_s z) /
      gravitational_parameter +
    norm3 position_vector * (1 - z * stumpff_c z) / Real.sqrt gravitational_parameter

/-- Source `kepler_problem` Newton loop on the universal variable, by fuel:
stop once the computed `t` is within `uncertainty` of the requested flight
time, else step by `(flight_time - t)/dtdx`. -/
def kepler_loop (position_vector velocity_vector : Fin 3 → ℝ)
    (flight_time uncertainty gravitational_parameter : ℝ) : ℕ → ℝ → Option ℝ
  | 0, _ => none
  | fuel + 1, x =>
    let t := kepler_t position_vector velocity_vector gravitational_parameter x
    if flight_time - uncertainty < t ∧ t < flight_time + uncertainty then some x
    else
      kepler_loop position_vector velocity_vector flight_time uncertainty
        gravitational_parameter fuel
        (x + (flight_time - t) /
          kepler_dtdx position_vector velocity_vector gravitational_parameter x)

/-- Return value of `kepler_problem`: final position and velocity vectors,
the universal variable, and the `f·ġ − ḟ·g` consistency check. -/
structure KeplerResult where
  position_vector_final : Fin 3 → ℝ
  velocity_vector_final : Fin 3 → ℝ
  universal_variable : ℝ
  check : ℝ

/-- Source `kepler_problem` epilogue after the loop: Lagrange `f`, `g`,
`ḟ`, `ġ` coefficients, the final state, and the consistency check. -/
def kepler_final (position_vector velocity_vector : Fin 3 → ℝ)
    (gravitational_parameter x : ℝ) : KeplerResult :=
  let alpha := kepler_alpha position_vector velocity_vector gravitational_parameter
  let z := alpha * x ^ 2
  let c := stumpff_c z
  let s := stumpff_s z
  let t := kepler_t position_vector velocity_vector gravitational_parameter x
  let position_magnitude := norm3 position_vector
  let f := 1 - c * x ^ 2 / position_magnitude
  let g := t - s * x ^ 3 / Real.sqrt gravitational_parameter
  let position_vector_final := fun j => f * position_vector j + g * velocity_vector j
  let position_magnitude_final := norm3 position_vector_final
  let dfdt := Real.sqrt gravitational_parameter * x * (z * s - 1) /
    (position_magnitude * position_magnitude_final)
  let dgdt := 1 - c * x ^ 2 / position_magnitude_final
  ⟨position_vector_final,
   fun j => dfdt * position_vector j + dgdt * velocity_vector j,
   x, f * dgdt - dfdt * g⟩

/-- Source `afunc.kepler_problem`: Newton loop then epilogue. -/
def kepler_problem (position_vector velocity_vector : Fin 3 → ℝ)
    (flight_time trial_variable uncertainty gravitational_parameter : ℝ) (fuel : ℕ) :
    Option KeplerResult :=
  (kepler_loop position_vector velocity_vector flight_time uncertainty
      gravitational_parameter fuel trial_variable).map
    (kepler_final position_vector velocity_vector gravitational_parameter)

end

/-- Stumpff master identity: `(1 − z·S)² = C·(2 − z·C)` uniformly across
the three branches (the Pythagorean identity for `z > 0`, the hyperbolic
one for `z < 0`, and arithmetic at `z = 0`). -/
lemma stumpff_master (z : ℝ) :
    (1 - z * stumpff_s z) ^ 2 = stumpff_c z * (2 - z * stumpff_c z) := by
  rcases lt_trichotomy z 0 with hz | hz | hz
  · rw [stumpff_c, stumpff_s, if_neg hz.ne, if_neg hz.ne, if_neg (not_lt.mpr hz.le),
      if_neg (not_lt.mpr hz.le)]
    set w := Real.sqrt (-z) with hw
    have hwpos : 0 < w := Real.sqrt_pos.mpr (by linarith)
    have hw2 : w ^ 2 = -z := Real.sq_sqrt (by linarith)
    have hw3 : Real.sqrt ((-z) ^ 3) = w ^ 3 := by
      rw [show (-z) ^ 3 = (w ^ 3) ^ 2 by rw [← hw2]; ring]
      exact Real.sqrt_sq (by positivity)
    have hzw : z = -w ^ 2 := by rw [hw2, neg_neg]
    rw [hw3, hzw]
    have hch : Real.cosh w ^ 2 - Real.sinh w ^ 2 = 1 := Real.cosh_sq_sub_sinh_sq w
    field_simp
    linear_combination w ^ 6 * hch
  · subst hz
    rw [stumpff_c, stumpff_s, if_pos rfl, if_pos rfl]
    norm_num
  · rw [stumpff_c, stumpff_s, if_neg hz.ne', if_neg hz.ne', if_pos hz, if_pos hz]
    set w := Real.sqrt z with hw
    have hwpos : 0 < w := Real.sqrt_pos.mpr hz
    have hw2 : w ^ 2 = z := Real.sq_sqrt hz.le
    have hzw : z = w ^ 2 := hw2.symm
    rw [hzw]
    have hsc : Real.sin w ^ 2 + Real.cos w ^ 2 = 1 := Real.sin_sq_add_cos_sq w
    field_simp
    linear_combination w ^ 6 * hsc

/-- Scalar reduction of the Lagrange `g` coefficient of `kepler_problem`:
`t − s·x³/√μ` in closed form over the common denominator `√μ`. -/
lemma kepler_g_scalar (d r0 c s α μ m x : ℝ) (hm : m ^ 2 = μ) (hm0 : m ≠ 0) :
    d * x ^ 2 * c / μ + (1 - r0 * α) * x ^ 3 * s / m + r0 * x / m - s * x ^ 3 / m =
      (d * x ^ 2 * c / m + r0 * x * (1 - α * x ^ 2 * s)) / m := by
  subst hm
  field_simp
  ring

/-- Scalar reduction of `√μ · dt/dx` for `kepler_problem` (the theoretical
radius at universal anomaly `x`). -/
lemma kepler_E_scalar (d r0 c s α μ m x : ℝ) (hm : m ^ 2 = μ) (hm0 : m ≠ 0) :
    m * (x ^ 2 * c / m + d * x * (1 - α * x ^ 2 * s) / μ + r0 * (1 - α * x ^ 2 * c) / m) =
      x ^ 2 * c + d * x * (1 - α * x ^ 2 * s) / m + r0 * (1 - α * x ^ 2 * c) := by
  subst hm
  field_simp
  ring

/-- Scalar identity: the squared final radius built from the Lagrange
`f`, `g` coefficients equals the square of `√μ·dt/dx`, given the Stumpff
master identity and the vis-viva relation defining `α`. -/
lemma kepler_rf_sq_scalar (c s z x d r0 v0sq μ m α : ℝ)
    (hm : m ^ 2 = μ) (hm0 : m ≠ 0) (hr0 : r0 ≠ 0)
    (hz : z = α * x ^ 2) (hv : v0sq = 2 * μ / r0 - α * μ)
    (hmaster : (1 - z * s) ^ 2 = c * (2 - z * c)) :
    (1 - c * x ^ 2 / r0) ^ 2 * r0 ^ 2 +
      2 * (1 - c * x ^ 2 / r0) * ((d * x ^ 2 * c / m + r0 * x * (1 - z * s)) / m) * d +
      ((d * x ^ 2 * c / m + r0 * x * (1 - z * s)) / m) ^ 2 * v0sq =
    (x ^ 2 * c + d * x * (1 - z * s) / m + r0 * (1 - z * c)) ^ 2 := by
  subst hz hv hm
  field_simp
  linear_combination (2 * x ^ 2 * r0 ^ 3 * m ^ 8 - r0 ^ 2 * m ^ 6 * d ^ 2 * x ^ 2 -
    r0 ^ 4 * m ^ 8 * α * x ^ 2) * hmaster

/-- Scalar identity: the `f·ġ − ḟ·g` combination deviates from `1` exactly
by `c·x²·(E − rf)/(r0·rf)`, where `E` is `√μ·dt/dx`. -/
lemma kepler_check_scalar (c s z x d r0 m rf : ℝ) (hm0 : m ≠ 0) (hr0 : r0 ≠ 0)
    (hrf : rf ≠ 0) (hmaster : (1 - z * s) ^ 2 = c * (2 - z * c)) :
    (1 - c * x ^ 2 / r0) * (1 - c * x ^ 2 / rf) -
      m * x * (z * s - 1) / (r0 * rf) * ((d * x ^ 2 * c / m + r0 * x * (1 - z * s)) / m) =
    1 + c * x ^ 2 * ((x ^ 2 * c + d * x * (1 - z * s) / m + r0 * (1 - z * c)) - rf) /
      (r0 * rf) := by
  field_simp
  linear_combination (r0 ^ 3 * x ^ 2 * rf ^ 2 * m ^ 3) * hmaster

/-! Claim C10: `turning_angle` sentinel behaviour. -/

/-- Claim C10: for every eccentricity `e ≤ 1`, `turning_angle` returns the
`None` sentinel (it neither raises nor returns a number), and for every
`e > 1` it returns `2·asin(1/e)`. -/
theorem turning_angle_sentinel (e : ℝ) :
    (e ≤ 1 → turning_angle e = none) ∧
      (1 < e → turning_angle e = some (2 * Real.arcsin (1 / e))) := by
  constructor
  · intro h
    simp [turning_angle, not_lt.mpr h]
  · intro h
    simp [turning_angle, h]

/-- Witness for C10 at the concrete eccentricities `1/2` and `2`. -/
theorem turning_angle_sentinel_witness :
    turning_angle (1 / 2) = none ∧ turning_angle 2 = some (2 * Real.arcsin (1 / 2)) :=
  ⟨(turning_angle_sentinel (1 / 2)).1 (by norm_num),
   (turning_angle_sentinel 2).2 (by norm_num)⟩

/-! Claim C4: `vis_viva` on a negative radicand. -/

/-- Claim C4 (refuting evaluation): at `radius = 4`, `semi_major_axis = 1`,
`μ = 1` the radicand `μ·(2/r − 1/a) = −1/2` is negative, and `vis_viva`
silently returns the complex value `i·sqrt(1/2)` (nonzero imaginary part)
rather than signalling a domain error: Python `(-0.5)**0.5` yields a
`complex`, contradicting the claimed error signalling (and the function's
own `:return: (float)` documentation). -/
theorem vis_viva_negative_radicand_silent_complex :
    (1 : ℝ) * (2 / 4 - 1 / 1) < 0 ∧
      vis_viva 4 1 1 = (0, Real.sqrt (1 / 2)) ∧ (vis_viva 4 1 1).2 ≠ 0 := by
  refine ⟨by norm_num, ?_, ?_⟩
  · have h : (1 : ℝ) * (2 / 4 - 1 / 1) = -(1 / 2) := by norm_num
    rw [vis_viva, pypowHalf, h]
    norm_num
  · have h : (1 : ℝ) * (2 / 4 - 1 / 1) = -(1 / 2) := by norm_num
    rw [vis_viva, pypowHalf, h]
    norm_num [Real.sqrt_eq_zero']

/-! Claim C3: the hyperbolic branch of `flight_time`. -/

/-- Claim C3 (refuting evaluation): at `e = 2`, `p = 1`, `μ = 1`, `ν1 = 0`,
`ν2 = 7π/6 ∈ (π, 3π/2)` the hyperbolic branch of `flight_time` returns a
value with strictly negative imaginary part, not a real flight time: the
semi-major axis is `1/(1−4) = −1/3`, so the Python factor `(a³/μ)**0.5`
has the negative radicand `−1/27` and silently becomes complex, and the
branch computes `cosh` of `(e+cos ν)/(1+e·cos ν)` where the hyperbolic
anomaly requires the inverse `acosh`.  Hence `flight_time` is not a real
monotonically increasing function of `ν2` on `(π, 3π/2)` as claimed. -/
theorem flight_time_hyperbolic_complex :
    ∃ w : Cx, flight_time 2 1 0 (7 * π / 6) 0 1 = Except.ok w ∧ w.2 < 0 := by
  have hpi : (0 : ℝ) < π := Real.pi_pos
  have h1 : ¬((0 : ℝ) ≤ 2 ∧ (2 : ℝ) < 1) := by norm_num
  have h2 : ¬((2 : ℝ) = 1) := by norm_num
  have h3 : (1 : ℝ) < 2 := by norm_num
  have h4 : ¬(π < (0 : ℝ) ∧ (0 : ℝ) < 2 * π) := by rintro ⟨h, -⟩; linarith
  have h5 : π < 7 * π / 6 ∧ 7 * π / 6 < 2 * π := ⟨by linarith, by linarith⟩
  have hsma : (semi_major_axis 1 2 false 0 0).getD 0 = -(1 / 3 : ℝ) := by
    norm_num [semi_major_axis]
  have hcos0 : (2 + Real.cos 0) / (1 + 2 * Real.cos 0) = 1 := by
    rw [Real.cos_zero]; norm_num
  refine ⟨pySMul
      ((2 * Real.sinh (-Real.cosh ((2 + Real.cos (7 * π / 6)) /
            (1 + 2 * Real.cos (7 * π / 6)))) -
          -Real.cosh ((2 + Real.cos (7 * π / 6)) / (1 + 2 * Real.cos (7 * π / 6)))) -
        (2 * Real.sinh (Real.cosh 1) - Real.cosh 1))
      (pypowHalf ((-(1 / 3 : ℝ)) ^ 3 / 1)), ?_, ?_⟩
  · simp only [flight_time]
    rw [if_neg h1, if_neg h2, if_pos h3, if_neg h4, if_pos h5, hsma, hcos0]
  · have hone : (1 : ℝ) ≤ Real.cosh ((2 + Real.cos (7 * π / 6)) /
        (1 + 2 * Real.cos (7 * π / 6))) := Real.one_le_cosh _
    have hsc1 : Real.cosh ((2 + Real.cos (7 * π / 6)) / (1 + 2 * Real.cos (7 * π / 6))) <
        Real.sinh (Real.cosh ((2 + Real.cos (7 * π / 6)) / (1 + 2 * Real.cos (7 * π / 6)))) :=
      Real.self_lt_sinh_iff.mpr (by linarith)
    have hch1 : (1 : ℝ) ≤ Real.cosh 1 := Real.one_le_cosh 1
    have hsch : Real.cosh 1 < Real.sinh (Real.cosh 1) :=
      Real.self_lt_sinh_iff.mpr (by linarith)
    have hpow : pypowHalf ((-(1 / 3 : ℝ)) ^ 3 / 1) = (0, Real.sqrt (1 / 27)) := by
      rw [pypowHalf, if_neg (by norm_num)]
      norm_num
    rw [hpow]
    have hs : 0 < Real.sqrt (1 / 27) := Real.sqrt_pos.mpr (by norm_num)
    simp only [pySMul, Real.sinh_neg]
    nlinarith

/-! Claim C2: Δv sign conventions of the maneuver classes. -/

/-- Claim C2 (counterexample): the bi-elliptic transfer from `r1 = 4` inward
to `r2 = 1` (final radius smaller) with transfer apoapsis `9` and `μ = 1`
reports a strictly positive first impulse, whereas the claimed rule demands
a negative Δv at every site of an inward transfer: `BiElliptic.delta_v_1`
performs no radius comparison at all. -/
theorem biElliptic_inward_first_impulse_positive :
    (BiElliptic.mk 4 1 1 9).final_radius < (BiElliptic.mk 4 1 1 9).initial_radius ∧
      0 < (BiElliptic.mk 4 1 1 9).delta_v_1 := by
  refine ⟨by norm_num, ?_⟩
  have hsma : (BiElliptic.mk 4 1 1 9).semi_major_axis_one = 13 / 2 := by
    norm_num [BiElliptic.semi_major_axis_one, semi_major_axis]
  have hrad : (1 : ℝ) * (2 / 4 - 1 / (13 / 2)) = 9 / 26 := by norm_num
  have hv : vis_viva 4 (13 / 2) 1 = (Real.sqrt (9 / 26), 0) := by
    rw [vis_viva, hrad, pypowHalf, if_pos (by norm_num : (0:ℝ) ≤ 9 / 26)]
  have hc : circular_speed 4 1 = (Real.sqrt (1 / 4), 0) := by
    rw [circular_speed, pypowHalf, if_pos (by norm_num : (0:ℝ) ≤ (1:ℝ) / 4)]
  have hlt : Real.sqrt (1 / 4) < Real.sqrt (9 / 26) :=
    Real.sqrt_lt_sqrt (by norm_num) (by norm_num)
  rw [BiElliptic.delta_v_1, hsma, delta_v, hv, hc, pySub, pyAbs]
  have hpos : (0 : ℝ) < Real.sqrt (9 / 26) - Real.sqrt (1 / 4) := by linarith
  have : (0 : ℝ) <
      (Real.sqrt (9 / 26) - Real.sqrt (1 / 4)) ^ 2 + ((0 : ℝ) - 0) ^ 2 := by positivity
  exact Real.sqrt_pos.mpr this

/-- Amended claim C2: the code's actual deterministic sign convention.
Hohmann negates both impulses exactly for inward transfers
(`initial_radius > final_radius`); BiElliptic applies the radius comparison
only at the second impulse, while its first impulse is always nonnegative
and its third always nonpositive, regardless of direction; and
GeneralTransfer's Δv values always have nonnegative real part (the transfer
direction affects only the burn angles). -/
theorem maneuver_delta_v_signs :
    (∀ h : Hohmann,
        (h.initial_radius > h.final_radius → h.delta_v_1 ≤ 0 ∧ h.delta_v_2 ≤ 0) ∧
          (¬h.initial_radius > h.final_radius → 0 ≤ h.delta_v_1 ∧ 0 ≤ h.delta_v_2)) ∧
      (∀ b : BiElliptic,
          0 ≤ b.delta_v_1 ∧ b.delta_v_3 ≤ 0 ∧
            (b.initial_radius > b.final_radius → b.delta_v_2 ≤ 0) ∧
              (¬b.initial_radius > b.final_radius → 0 ≤ b.delta_v_2)) ∧
        ∀ g : GeneralTransfer, 0 ≤ g.delta_v_1.1 ∧ 0 ≤ g.delta_v_2.1 := by
  have site : ∀ (h : Hohmann) (radius : ℝ),
      (h.initial_radius > h.final_radius → h.delta_v_site radius ≤ 0) ∧
        (¬h.initial_radius > h.final_radius → 0 ≤ h.delta_v_site radius) := by
    intro h radius
    simp only [Hohmann.delta_v_site]
    constructor <;> intro hc
    · simp only [if_pos hc]
      linarith [delta_v_nonneg radius h.semi_major_axis_transfer h.gravitational_parameter]
    · simp only [if_neg hc]
      exact delta_v_nonneg _ _ _
  refine ⟨fun h => ⟨fun hlt => ?_, fun hge => ?_⟩, fun b => ⟨?_, ?_, fun hlt => ?_, fun hge => ?_⟩,
    fun g => ⟨pySqrt_fst_nonneg _, pySqrt_fst_nonneg _⟩⟩
  · exact ⟨(site h h.initial_radius).1 hlt, (site h h.final_radius).1 hlt⟩
  · exact ⟨(site h h.initial_radius).2 hge, (site h h.final_radius).2 hge⟩
  · exact pyAbs_nonneg _
  · have := pyAbs_nonneg (pySub
      (vis_viva b.final_radius b.semi_major_axis_two b.gravitational_parameter)
      (circular_speed b.final_radius b.gravitational_parameter))
    rw [BiElliptic.delta_v_3, delta_v]
    linarith
  · rw [BiElliptic.delta_v_2]
    simp only [if_pos hlt]
    exact neg_nonpos.mpr (pyAbs_nonneg _)
  · rw [BiElliptic.delta_v_2]
    simp only [if_neg hge]
    exact pyAbs_nonneg _

/-- Witness for the amended C2 at concrete transfers: the inward Hohmann
`4 → 1` has nonpositive first impulse, and the outward BiElliptic
`1 → 2` (apoapsis `9`) has nonnegative second impulse. -/
theorem maneuver_delta_v_signs_witness :
    (Hohmann.mk 4 1 1).delta_v_1 ≤ 0 ∧ 0 ≤ (BiElliptic.mk 1 2 1 9).delta_v_2 :=
  ⟨((maneuver_delta_v_signs.1 (Hohmann.mk 4 1 1)).1 (by norm_num)).1,
   (maneuver_delta_v_signs.2.1 (BiElliptic.mk 1 2 1 9)).2.2.2 (by norm_num)⟩

/-! Claim C5: the `degrees=True` boundary conversion of `DopplerRadar`. -/

/-- Claim C5 (refuting evaluation): with `degrees=True`, `DopplerRadar`
applies the degree→radian conversion to the range and range-rate inputs as
well: a range of `1000` (km) is turned into `1000·π/180 ≈ 17.45` and a
range-rate of `2` (km/s) into `2·π/180`, because the `__deg` hook is wired
to every stored attribute, not only the angles.  This contradicts the
claimed units contract (distances must pass through unchanged). -/
theorem dopplerRadar_range_converted :
    (DopplerRadar.mk 1000 30 45 2 0 0 0 10 20 1 true).distance = 1000 * π / 180 ∧
      (DopplerRadar.mk 1000 30 45 2 0 0 0 10 20 1 true).distance ≠ 1000 ∧
        (DopplerRadar.mk 1000 30 45 2 0 0 0 10 20 1 true).distance_dot = 2 * π / 180 := by
  refine ⟨by simp [DopplerRadar.distance, DopplerRadar.deg], ?_,
    by simp [DopplerRadar.distance_dot, DopplerRadar.deg]⟩
  simp only [DopplerRadar.distance, DopplerRadar.deg, if_pos]
  intro h
  have hpi : π < 3.15 := Real.pi_lt_d2
  linarith

/-! Claim C6: the centrifugal correction in `DopplerRadar.geo_velocity`. -/

/-- Claim C6 (counterexample): for the observation with range 1, azimuth 0,
altitude 0, zero rates, station elevation 0, latitude `π/2`, local sidereal
time 0, angular speed 1 and `degrees=False`, the code's `geo_velocity`
differs from the claimed value (rotation of the topocentric velocity plus
`ω⃗ × r⃗_station`): the code adds `ω⃗ ×` the satellite's geocentric position
inside the rotation, giving second component `−1`, while the claimed
formula gives `0` there. -/
theorem dopplerRadar_geo_velocity_correction_differs :
    (DopplerRadar.mk 1 0 0 0 0 0 0 (π / 2) 0 1 false).geo_velocity ≠
      mulVec3 (DopplerRadar.mk 1 0 0 0 0 0 0 (π / 2) 0 1 false).transform
          (DopplerRadar.mk 1 0 0 0 0 0 0 (π / 2) 0 1 false).topo_velocity +
        cross3 (DopplerRadar.mk 1 0 0 0 0 0 0 (π / 2) 0 1 false).angular_velocity
          (station_position (π / 2) 0 0 false) := by
  have hI : topo_to_geo (π / 2) 0 = ![![1, 0, 0], ![0, 1, 0], ![0, 0, 1]] := by
    have h : π / 2 - π / 2 = 0 := sub_self _
    funext i j
    fin_cases i <;> fin_cases j <;>
      simp [topo_to_geo, inv3, det3, geo_to_topo, matMul3, rotate_y, rotate_z, dot3, h,
        Matrix.vecHead, Matrix.vecTail]
  have hmul : ∀ v : Fin 3 → ℝ, mulVec3 ![![1, 0, 0], ![0, 1, 0], ![0, 0, 1]] v = v := by
    intro v
    funext i
    fin_cases i <;> simp [mulVec3, dot3, Matrix.vecHead, Matrix.vecTail]
  have ht : (DopplerRadar.mk 1 0 0 0 0 0 0 (π / 2) 0 1 false).transform =
      ![![1, 0, 0], ![0, 1, 0], ![0, 0, 1]] := by
    simp only [DopplerRadar.transform, DopplerRadar.latitude, DopplerRadar.local_sidereal_time,
      DopplerRadar.deg]
    simpa using hI
  intro h
  have h1 := congrFun h 1
  rw [DopplerRadar.geo_velocity, ht, hmul, DopplerRadar.geo_position, ht, hmul] at h1
  simp only [DopplerRadar.topo_velocity, DopplerRadar.topo_position, DopplerRadar.angular_velocity,
    DopplerRadar.distance, DopplerRadar.azimuth, DopplerRadar.altitude,
    DopplerRadar.distance_dot, DopplerRadar.azimuth_dot, DopplerRadar.altitude_dot,
    DopplerRadar.latitude, DopplerRadar.elevation, DopplerRadar.local_sidereal_time,
    DopplerRadar.deg, station_position, cross3, Pi.add_apply] at h1
  norm_num [mulVec3, dot3, Matrix.vecHead, Matrix.vecTail, Real.cos_pi_div_two,
    Real.sin_pi_div_two] at h1

/-- Amended claim C6: what `geo_velocity` actually computes.  The
centrifugal correction term is `ω⃗ ×` the satellite's geocentric position
(not the station position), and it is added before the topocentric→
geocentric rotation is applied, i.e. the rotation acts on the corrected
topocentric velocity. -/
theorem dopplerRadar_geo_velocity_decomposition (d : DopplerRadar) :
    d.geo_velocity =
      mulVec3 d.transform d.topo_velocity +
        mulVec3 d.transform (cross3 d.angular_velocity d.geo_position) := by
  funext i
  fin_cases i <;>
    simp [DopplerRadar.geo_velocity, mulVec3, dot3, cross3, Pi.add_apply] <;> ring

/-! Claim C9: the transformation truth table of `Elements`. -/

/-- Claim C9: `Elements.__vector_conditions` applies exactly one
transformation selected by the `(e = 0?, sin i = 0?)` truth table: the
general perifocal→geocentric rotation when `e ≠ 0` and `sin i ≠ 0`, the
longitude-of-periapsis rotation when `e ≠ 0` and `sin i = 0`, the
node/inclination rotation when `e = 0` and `sin i ≠ 0`, and the identity
when `e = 0` and `sin i = 0`. -/
theorem elements_vector_conditions_truth_table (E : Elements) (v : Fin 3 → ℝ) :
    (E.eccentricity ≠ 0 → Real.sin E.inclination ≠ 0 →
        E.vector_conditions v = mulVec3
          (peri_to_geo E.inclination E.longitude_of_ascending_node E.periapsis_angle) v) ∧
      (E.eccentricity ≠ 0 → Real.sin E.inclination = 0 →
          E.vector_conditions v = mulVec3 (peri_to_geo_i E.periapsis_angle) v) ∧
        (E.eccentricity = 0 → Real.sin E.inclination ≠ 0 →
            E.vector_conditions v = mulVec3
              (peri_to_geo_e E.inclination E.longitude_of_ascending_node) v) ∧
          (E.eccentricity = 0 → Real.sin E.inclination = 0 → E.vector_conditions v = v) :=
  ⟨fun he hs => E.vector_conditions_ne_ne v he hs,
   fun he hs => E.vector_conditions_ne_eq v he hs,
   fun he hs => E.vector_conditions_eq_ne v he hs,
   fun he hs => E.vector_conditions_eq_eq v he hs⟩

/-- Witness for C9 at a concrete circular equatorial element set: the
vector is returned unchanged. -/
theorem elements_vector_conditions_truth_table_witness :
    (Elements.mk 1 0 0 0 0 0 1 false).vector_conditions ![1, 2, 3] = ![1, 2, 3] :=
  (elements_vector_conditions_truth_table (Elements.mk 1 0 0 0 0 0 1 false) ![1, 2, 3]).2.2.2
    rfl (by simp [Elements.inclination, Elements.deg])

/-! Claim C1: the Elements→State→Elements round trip. -/

/-- Claim C1 (counterexample): for the valid classical elements `p = 1`,
`e = 1/2`, `i = π/2`, `Ω = 0`, `ω = 0`, `ν = 3π/2`, `μ = 1` (inside the
claimed ranges `e ∈ [0, 0.9]`, `i ∈ (0, π)`), converting to a state and
back recovers the true anomaly as `acos(cos ν) = π/2`, not `3π/2`: the
relative error is `2/3`, far beyond `1e-6`.  `DetermineElements` uses bare
`acos` with no quadrant correction, so every angle in `(π, 2π)` is
reflected. -/
theorem elements_roundtrip_counterexample :
    (DetermineElements.mk (Elements.mk 1 (1 / 2) (π / 2) 0 0 (3 * π / 2) 1 false).position
          (Elements.mk 1 (1 / 2) (π / 2) 0 0 (3 * π / 2) 1 false).velocity 1).true_anomaly =
        some (π / 2) ∧
      ¬|π / 2 - 3 * π / 2| ≤ 1 / 1000000 * (3 * π / 2) := by
  have hpi : (0 : ℝ) < π := Real.pi_pos
  have hc32 : Real.cos (3 * π / 2) = 0 := by
    rw [show (3 * π / 2 : ℝ) = π + π / 2 by ring, Real.cos_add]
    simp
  have hs32 : Real.sin (3 * π / 2) = -1 := by
    rw [show (3 * π / 2 : ℝ) = π + π / 2 by ring, Real.sin_add]
    simp
  set E : Elements := Elements.mk 1 (1 / 2) (π / 2) 0 0 (3 * π / 2) 1 false with hE
  have hinc : E.inclination = π / 2 := by simp [Elements.inclination, Elements.deg, hE]
  have hloan : E.longitude_of_ascending_node = 0 := by
    simp [Elements.longitude_of_ascending_node, Elements.deg, hE]
  have hpa : E.periapsis_angle = 0 := by simp [Elements.periapsis_angle, Elements.deg, hE]
  have hea : E.epoch_angle = 3 * π / 2 := by simp [Elements.epoch_angle, Elements.deg, hE]
  have he : E.eccentricity ≠ 0 := by simp [hE]
  have hs : Real.sin E.inclination ≠ 0 := by rw [hinc]; simp
  have hM : peri_to_geo E.inclination E.longitude_of_ascending_node E.periapsis_angle =
      ![![1, 0, 0], ![0, 0, -1], ![0, 1, 0]] := by
    rw [hinc, hloan, hpa]
    funext i j
    fin_cases i <;> fin_cases j <;>
      simp [peri_to_geo, Matrix.vecHead, Matrix.vecTail]
  have hposition : E.position = ![0, 0, -1] := by
    rw [Elements.position]
    rw [E.vector_conditions_ne_ne _ he hs, hM]
    funext i
    fin_cases i <;>
      simp [mulVec3, dot3, orbital_radius, Elements.epoch_angle, Elements.deg, hE, hc32, hs32,
        Pi.smul_apply, smul_eq_mul, Matrix.vecHead, Matrix.vecTail]
  have hvelocity : E.velocity = ![1, 0, 1 / 2] := by
    rw [Elements.velocity]
    rw [E.vector_conditions_ne_ne _ he hs, hM]
    funext i
    fin_cases i <;>
      simp [mulVec3, dot3, Elements.epoch_angle, Elements.deg, hE, hc32, hs32,
        Pi.smul_apply, smul_eq_mul, Matrix.vecHead, Matrix.vecTail]
  constructor
  · set D : DetermineElements := DetermineElements.mk E.position E.velocity 1 with hD
    have hposm : D.position_magnitude = 1 := by
      simp [DetermineElements.position_magnitude, hD, hposition, norm3, dot3,
        Matrix.vecHead, Matrix.vecTail]
    have hvelm2 : D.velocity_magnitude ^ 2 = 5 / 4 := by
      rw [DetermineElements.velocity_magnitude, hD]
      rw [hvelocity]
      rw [norm3, Real.sq_sqrt]
      · simp [dot3, Matrix.vecHead, Matrix.vecTail]
        norm_num
      · simp [dot3, Matrix.vecHead, Matrix.vecTail]
        norm_num
    have hdotrv : dot3 D.position_vector D.velocity_vector = -(1 / 2) := by
      simp [hD, hposition, hvelocity, dot3, Matrix.vecHead, Matrix.vecTail]
    have hevec : D.eccentricity_vector = ![1 / 2, 0, 0] := by
      funext j
      rw [DetermineElements.eccentricity_vector, eccentricity_vector]
      rw [show D.gravitational_parameter = 1 from rfl, hdotrv]
      have : D.velocity_magnitude ^ 2 = 5 / 4 := hvelm2
      rw [this, hposm]
      have hp : D.position_vector = ![0, 0, -1] := by rw [hD]; exact hposition
      have hv : D.velocity_vector = ![1, 0, 1 / 2] := by rw [hD]; exact hvelocity
      rw [hp, hv]
      fin_cases j <;> simp [Matrix.vecHead, Matrix.vecTail]; norm_num
    have hecc : D.eccentricity = 1 / 2 := by
      rw [DetermineElements.eccentricity, hevec, norm3]
      rw [show dot3 ![(1 : ℝ) / 2, 0, 0] ![(1 : ℝ) / 2, 0, 0] = (1 / 2) ^ 2 by
        simp [dot3, Matrix.vecHead, Matrix.vecTail]; norm_num]
      exact Real.sqrt_sq (by norm_num)
    rw [DetermineElements.true_anomaly, if_neg]
    · rw [hecc, hevec, hposm]
      rw [show D.position_vector = ![0, 0, -1] from hposition]
      rw [show dot3 ![(1 : ℝ) / 2, 0, 0] ![0, 0, -1] = 0 by
        simp [dot3, Matrix.vecHead, Matrix.vecTail]]
      norm_num [Real.arccos_zero]
    · rw [hecc, hposm]
      push_neg
      constructor <;> norm_num
  · rw [abs_of_nonpos (by linarith)]
    intro h
    nlinarith

/-- Amended claim C1: for classical elements with `p > 0`, `μ > 0`,
`e ∈ (0, 0.9]`, `i ∈ (0, π)` and `Ω, ω, ν ∈ [0, π]`, the
Elements→State→Elements round trip recovers eccentricity, inclination,
longitude of ascending node, argument of periapsis and true anomaly
exactly (in particular within `1e-6` relative error).  The
`semi_latus_rectum` property of `DetermineElements` returns the
elementwise array `(h_x², h_y², h_z²)/μ` — the angular-momentum vector is
passed where `afunc.semi_latus_rectum` expects its magnitude — so the
scalar `p` is recovered only as the sum of that array's components.
Angles in `(π, 2π)` are reflected by the bare `acos` (see the
counterexample), hence the `[0, π]` restriction; at `e = 0` the code
returns the `None` sentinel for `ω` and `ν`, hence `e > 0`. -/
theorem elements_roundtrip_amended (p e i Ω ω ν μ : ℝ)
    (hp : 0 < p) (hμ : 0 < μ) (he0 : 0 < e) (he9 : e ≤ 9 / 10)
    (hi0 : 0 < i) (hiπ : i < π) (hΩ0 : 0 ≤ Ω) (hΩπ : Ω ≤ π)
    (hω0 : 0 ≤ ω) (hωπ : ω ≤ π) (hν0 : 0 ≤ ν) (hνπ : ν ≤ π) :
    (DetermineElements.mk (Elements.mk p e i Ω ω ν μ false).position
          (Elements.mk p e i Ω ω ν μ false).velocity μ).eccentricity = e ∧
      (DetermineElements.mk (Elements.mk p e i Ω ω ν μ false).position
            (Elements.mk p e i Ω ω ν μ false).velocity μ).inclination = some i ∧
        (DetermineElements.mk (Elements.mk p e i Ω ω ν μ false).position
              (Elements.mk p e i Ω ω ν μ false).velocity μ).longitude_of_ascending_node =
            some Ω ∧
          (DetermineElements.mk (Elements.mk p e i Ω ω ν μ false).position
                (Elements.mk p e i Ω ω ν μ false).velocity μ).argument_of_periapsis =
              some ω ∧
            (DetermineElements.mk (Elements.mk p e i Ω ω ν μ false).position
                  (Elements.mk p e i Ω ω ν μ false).velocity μ).true_anomaly = some ν ∧
              (DetermineElements.mk (Elements.mk p e i Ω ω ν μ false).position
                    (Elements.mk p e i Ω ω ν μ false).velocity μ).semi_latus_rectum 0 +
                  (DetermineElements.mk (Elements.mk p e i Ω ω ν μ false).position
                      (Elements.mk p e i Ω ω ν μ false).velocity μ).semi_latus_rectum 1 +
                (DetermineElements.mk (Elements.mk p e i Ω ω ν μ false).position
                    (Elements.mk p e i Ω ω ν μ false).velocity μ).semi_latus_rectum 2 =
              p := by
  have hsi : 0 < Real.sin i := Real.sin_pos_of_pos_of_lt_pi hi0 hiπ
  have hsne : Real.sin i ≠ 0 := hsi.ne'
  have hene : e ≠ 0 := he0.ne'
  have hcν : -1 ≤ Real.cos ν := Real.neg_one_le_cos ν
  have hden : 0 < 1 + e * Real.cos ν := by nlinarith
  have hRpos : 0 < orbital_radius p e ν := by rw [orbital_radius]; positivity
  have hvmpos : 0 < Real.sqrt (μ / p) := Real.sqrt_pos.mpr (by positivity)
  have hai : 0 < p * Real.sqrt (μ / p) := by positivity
  set D : DetermineElements := DetermineElements.mk (Elements.mk p e i Ω ω ν μ false).position
    (Elements.mk p e i Ω ω ν μ false).velocity μ with hD
  set W : Fin 3 → ℝ := mulVec3 (peri_to_geo i Ω ω) ![0, 0, 1] with hWdef
  set P : Fin 3 → ℝ := mulVec3 (peri_to_geo i Ω ω) ![1, 0, 0] with hPdef
  have hhvec : D.specific_angular_momentum_vector = (p * Real.sqrt (μ / p)) • W :=
    roundtrip_h p e i Ω ω ν μ hene hsne hden.ne'
  have hWval : W = ![Real.sin Ω * Real.sin i, -(Real.cos Ω * Real.sin i), Real.cos i] :=
    peri_to_geo_col3 i Ω ω
  have hPval : P = ![Real.cos Ω * Real.cos ω - Real.sin Ω * Real.sin ω * Real.cos i,
      Real.sin Ω * Real.cos ω + Real.cos Ω * Real.sin ω * Real.cos i,
      Real.sin ω * Real.sin i] := peri_to_geo_col1 i Ω ω
  have hWnorm : norm3 W = 1 := by
    rw [hWdef, norm3, dot3_mulVec3_peri,
      show dot3 ![(0 : ℝ), 0, 1] ![0, 0, 1] = 1 by simp [dot3], Real.sqrt_one]
  have hPnorm : norm3 P = 1 := by
    rw [hPdef, norm3, dot3_mulVec3_peri,
      show dot3 ![(1 : ℝ), 0, 0] ![1, 0, 0] = 1 by simp [dot3], Real.sqrt_one]
  have hhmag : D.specific_angular_momentum_magnitude = p * Real.sqrt (μ / p) := by
    rw [DetermineElements.specific_angular_momentum_magnitude, hhvec, norm3_smul, hWnorm,
      mul_one, abs_of_pos hai]
  have hnvec : D.node_vector =
      (p * Real.sqrt (μ / p)) • ![Real.cos Ω * Real.sin i, Real.sin Ω * Real.sin i, 0] := by
    rw [DetermineElements.node_vector, Orbits.node_vector, hhvec, cross3_smul_right,
      cross3_e3_left]
    congr 1
    funext j
    fin_cases j <;> simp [hWval, Matrix.vecHead, Matrix.vecTail]
  have hnmag : D.node_magnitude = p * Real.sqrt (μ / p) * Real.sin i := by
    rw [DetermineElements.node_magnitude, hnvec, norm3_smul, abs_of_pos hai]
    congr 1
    rw [norm3, show dot3 ![Real.cos Ω * Real.sin i, Real.sin Ω * Real.sin i, 0]
        ![Real.cos Ω * Real.sin i, Real.sin Ω * Real.sin i, 0] = Real.sin i ^ 2 by
      simp [dot3]
      linear_combination Real.sin i ^ 2 * Real.sin_sq_add_cos_sq Ω]
    exact Real.sqrt_sq hsi.le
  have hevec : D.eccentricity_vector = e • P := by
    rw [DetermineElements.eccentricity_vector, DetermineElements.position_magnitude,
      DetermineElements.velocity_magnitude]
    exact roundtrip_evec p e i Ω ω ν μ hμ hp hene hsne hden
  have hecc : D.eccentricity = e := by
    rw [DetermineElements.eccentricity, hevec, norm3_smul, hPnorm, mul_one, abs_of_pos he0]
  have hpm : D.position_magnitude = orbital_radius p e ν := by
    rw [DetermineElements.position_magnitude]
    exact roundtrip_posmag p e i Ω ω ν μ hp hene hsne hden
  refine ⟨hecc, ?_, ?_, ?_, ?_, ?_⟩
  · rw [DetermineElements.inclination, if_neg (by rw [hhmag]; exact hai.ne')]
    rw [hhvec, dot3_smul_left, hhmag,
      show dot3 W ![0, 0, 1] = Real.cos i by rw [hWval]; simp [dot3],
      mul_div_cancel_left₀ _ hai.ne', Real.arccos_cos hi0.le hiπ.le]
  · rw [DetermineElements.longitude_of_ascending_node,
      if_neg (by
        rw [hnmag]
        exact (by positivity : (0 : ℝ) < p * Real.sqrt (μ / p) * Real.sin i).ne')]
    rw [hnvec, dot3_smul_left, hnmag,
      show dot3 ![Real.cos Ω * Real.sin i, Real.sin Ω * Real.sin i, 0] ![1, 0, 0] =
        Real.cos Ω * Real.sin i by simp [dot3],
      show p * Real.sqrt (μ / p) * (Real.cos Ω * Real.sin i) =
        p * Real.sqrt (μ / p) * Real.sin i * Real.cos Ω by ring,
      mul_div_cancel_left₀ _ (by positivity : (0 : ℝ) <
        p * Real.sqrt (μ / p) * Real.sin i).ne',
      Real.arccos_cos hΩ0 hΩπ]
  · rw [DetermineElements.argument_of_periapsis,
      if_neg (by
        rw [hnmag, hecc]
        exact not_or.mpr
          ⟨(by positivity : (0 : ℝ) < p * Real.sqrt (μ / p) * Real.sin i).ne', hene⟩)]
    rw [hnvec, hevec, dot3_smul_left, dot3_smul_right, hnmag, hecc,
      show dot3 ![Real.cos Ω * Real.sin i, Real.sin Ω * Real.sin i, 0] P =
          Real.sin i * Real.cos ω by
        rw [hPval]
        simp [dot3]
        linear_combination Real.sin i * Real.cos ω * Real.sin_sq_add_cos_sq Ω,
      show p * Real.sqrt (μ / p) * (e * (Real.sin i * Real.cos ω)) =
        p * Real.sqrt (μ / p) * Real.sin i * e * Real.cos ω by ring,
      show p * Real.sqrt (μ / p) * Real.sin i * e =
        p * Real.sqrt (μ / p) * Real.sin i * e by rfl,
      mul_div_cancel_left₀ _ (by positivity : (0 : ℝ) <
        p * Real.sqrt (μ / p) * Real.sin i * e).ne',
      Real.arccos_cos hω0 hωπ]
  · have hDpos : D.position_vector = mulVec3 (peri_to_geo i Ω ω)
        (orbital_radius p e ν • ![Real.cos ν, Real.sin ν, 0]) :=
      elements_state_pos p e i Ω ω ν μ hene hsne
    rw [DetermineElements.true_anomaly,
      if_neg (by rw [hecc, hpm]; exact not_or.mpr ⟨hene, hRpos.ne'⟩)]
    rw [hevec, hecc, hpm, hDpos, dot3_smul_left, hPdef, dot3_mulVec3_peri, dot3_smul_right,
      show dot3 ![(1 : ℝ), 0, 0] ![Real.cos ν, Real.sin ν, 0] = Real.cos ν by simp [dot3],
      show e * (orbital_radius p e ν * Real.cos ν) =
        e * orbital_radius p e ν * Real.cos ν by ring,
      mul_div_cancel_left₀ _ (by positivity : (0 : ℝ) < e * orbital_radius p e ν).ne',
      Real.arccos_cos hν0 hνπ]
  · have h2p : Real.sqrt (μ / p) ^ 2 * p = μ := by
      rw [Real.sq_sqrt (by positivity : (0 : ℝ) ≤ μ / p)]
      field_simp
    have hWsum : W 0 * W 0 + W 1 * W 1 + W 2 * W 2 = 1 := by
      have h := hWnorm
      rw [norm3] at h
      have h1 : dot3 W W = 1 := by
        have := congrArg (fun x => x ^ 2) h
        simpa [Real.sq_sqrt (dot3_self_nonneg W)] using this
      simpa [dot3] using h1
    simp only [DetermineElements.semi_latus_rectum, Orbits.semi_latus_rectum, hhvec,
      Pi.smul_apply, smul_eq_mul]
    rw [div_add_div_same, div_add_div_same, div_eq_iff hμ.ne']
    linear_combination (p * (W 0 * W 0 + W 1 * W 1 + W 2 * W 2)) * h2p + p * μ * hWsum

/-- Witness for the amended C1 at the concrete elements `p = 1`, `e = 1/2`,
`i = π/2`, `Ω = ω = ν = 0`, `μ = 1`. -/
theorem elements_roundtrip_amended_witness :
    (DetermineElements.mk (Elements.mk 1 (1 / 2) (π / 2) 0 0 0 1 false).position
          (Elements.mk 1 (1 / 2) (π / 2) 0 0 0 1 false).velocity 1).eccentricity = 1 / 2 ∧
      (DetermineElements.mk (Elements.mk 1 (1 / 2) (π / 2) 0 0 0 1 false).position
            (Elements.mk 1 (1 / 2) (π / 2) 0 0 0 1 false).velocity 1).inclination =
          some (π / 2) ∧
        (DetermineElements.mk (Elements.mk 1 (1 / 2) (π / 2) 0 0 0 1 false).position
              (Elements.mk 1 (1 / 2) (π / 2) 0 0 0 1 false).velocity
              1).longitude_of_ascending_node = some 0 ∧
          (DetermineElements.mk (Elements.mk 1 (1 / 2) (π / 2) 0 0 0 1 false).position
                (Elements.mk 1 (1 / 2) (π / 2) 0 0 0 1 false).velocity
                1).argument_of_periapsis = some 0 ∧
            (DetermineElements.mk (Elements.mk 1 (1 / 2) (π / 2) 0 0 0 1 false).position
                  (Elements.mk 1 (1 / 2) (π / 2) 0 0 0 1 false).velocity 1).true_anomaly =
                some 0 ∧
              (DetermineElements.mk (Elements.mk 1 (1 / 2) (π / 2) 0 0 0 1 false).position
                    (Elements.mk 1 (1 / 2) (π / 2) 0 0 0 1 false).velocity
                    1).semi_latus_rectum 0 +
                  (DetermineElements.mk (Elements.mk 1 (1 / 2) (π / 2) 0 0 0 1 false).position
                      (Elements.mk 1 (1 / 2) (π / 2) 0 0 0 1 false).velocity
                      1).semi_latus_rectum 1 +
                (DetermineElements.mk (Elements.mk 1 (1 / 2) (π / 2) 0 0 0 1 false).position
                    (Elements.mk 1 (1 / 2) (π / 2) 0 0 0 1 false).velocity
                    1).semi_latus_rectum 2 = 1 :=
  elements_roundtrip_amended 1 (1 / 2) (π / 2) 0 0 0 1 (by norm_num) (by norm_num)
    (by norm_num) (by norm_num) (by positivity) (by linarith [Real.pi_pos]) le_rfl
    Real.pi_pos.le le_rfl Real.pi_pos.le le_rfl Real.pi_pos.le

/-! Claim C8: the `y < 0` error path of `gauss_problem`. -/

/-- Claim C8: `gauss_problem` raises exactly when the intermediate `y`
becomes negative during an iteration, returns normally only through
iterations in which `y ≥ 0` (universally over the iteration state `z`, so
along every iteration of a normal return), and on a negative `y` at the
initial trial value the whole function surfaces the error — there is no
local recovery or clamping. -/
theorem gauss_problem_y_negative_raises
    (initial_magnitude final_magnitude a flight_time uncertainty μ : ℝ) (short : Bool)
    (fuel : ℕ) (z : ℝ) (initial_position final_position : Fin 3 → ℝ)
    (trial_variable : ℝ) :
    (gauss_y initial_magnitude final_magnitude a z < 0 →
        gauss_loop initial_magnitude final_magnitude a flight_time uncertainty μ short
          (fuel + 1) z = Except.error GaussErr.yNegative) ∧
      (∀ res, gauss_loop initial_magnitude final_magnitude a flight_time uncertainty μ short
            (fuel + 1) z = Except.ok res →
          0 ≤ gauss_y initial_magnitude final_magnitude a z) ∧
        (gauss_y (norm3 initial_position) (norm3 final_position)
            (gauss_a initial_position final_position short) trial_variable < 0 →
          gauss_problem initial_position final_position flight_time trial_variable
            uncertainty μ short (fuel + 1) = Except.error GaussErr.yNegative) := by
  have hstep : ∀ (r1 r2 A tf tol μg : ℝ) (sh : Bool) (n : ℕ) (w : ℝ),
      gauss_y r1 r2 A w < 0 →
        gauss_loop r1 r2 A tf tol μg sh (n + 1) w = Except.error GaussErr.yNegative := by
    intro r1 r2 A tf tol μg sh n w hy
    rw [gauss_loop]
    rw [if_neg]
    rw [Real.sign_of_neg hy]
    norm_num
  refine ⟨hstep _ _ _ _ _ _ _ _ _, ?_, ?_⟩
  · intro res hok
    by_contra hneg
    push_neg at hneg
    rw [hstep _ _ _ _ _ _ _ _ _ hneg] at hok
    exact Except.noConfusion hok
  · intro hy
    rw [gauss_problem, hstep _ _ _ _ _ _ _ _ _ hy]

/-- Concrete negative-`y` input for the Gauss solver: position magnitudes
`1` and `2`, `a = 2` (short way, aligned positions), iteration value
`z = -1`. -/
lemma gauss_y_concrete_neg : gauss_y 1 2 2 (-1) < 0 := by
  have hc : stumpff_c (-1) = Real.cosh 1 - 1 := by
    rw [stumpff_c, if_neg (by norm_num), if_neg (by norm_num)]
    rw [show -(-1 : ℝ) = 1 by norm_num, Real.sqrt_one]
    ring
  have hs : stumpff_s (-1) = Real.sinh 1 - 1 := by
    rw [stumpff_s, if_neg (by norm_num), if_neg (by norm_num)]
    rw [show -(-1 : ℝ) = 1 by norm_num, Real.sqrt_one,
      show ((1 : ℝ)) ^ 3 = 1 by norm_num, Real.sqrt_one, div_one]
  have hexp : (2.7182818283 : ℝ) < Real.exp 1 := Real.exp_one_gt_d9
  have hexp2 : (0 : ℝ) < Real.exp (-1) := Real.exp_pos _
  have hcosh : (5 / 4 : ℝ) < Real.cosh 1 := by
    rw [Real.cosh_eq]
    nlinarith
  have h1c : (0 : ℝ) < Real.cosh 1 - 1 := by linarith
  have hsq : Real.sqrt (Real.cosh 1 - 1) ^ 2 = Real.cosh 1 - 1 := Real.sq_sqrt h1c.le
  have hsqpos : 0 < Real.sqrt (Real.cosh 1 - 1) := Real.sqrt_pos.mpr h1c
  have hss : Real.cosh 1 ^ 2 - Real.sinh 1 ^ 2 = 1 := Real.cosh_sq_sub_sinh_sq 1
  have hshpos : 0 < Real.sinh 1 := Real.sinh_pos_iff.mpr one_pos
  have key : 3 * Real.sqrt (Real.cosh 1 - 1) < 2 * Real.sinh 1 := by
    nlinarith [hsq, hss, hsqpos, hshpos, hcosh]
  rw [gauss_y, hc, hs]
  have harg : (1 : ℝ) - -1 * (Real.sinh 1 - 1) = Real.sinh 1 := by ring
  rw [harg]
  have hdiv : (3 : ℝ) < 2 * Real.sinh 1 / Real.sqrt (Real.cosh 1 - 1) :=
    (lt_div_iff₀ hsqpos).mpr (by linarith)
  linarith

/-- Witness for C8: the concrete radar geometry `r⃗1 = (1,0,0)`,
`r⃗2 = (2,0,0)` (short way) with trial value `z = −1` has `y < 0`, and
`gauss_problem` surfaces the `y`-negative error. -/
theorem gauss_problem_y_negative_raises_witness :
    gauss_problem ![1, 0, 0] ![2, 0, 0] 1 (-1) (1 / 10000) 1 true 6 =
      Except.error GaussErr.yNegative := by
  have hr1 : norm3 ![(1 : ℝ), 0, 0] = 1 := by
    rw [norm3, show dot3 ![(1 : ℝ), 0, 0] ![1, 0, 0] = 1 by simp [dot3], Real.sqrt_one]
  have hr2 : norm3 ![(2 : ℝ), 0, 0] = 2 := by
    rw [norm3, show dot3 ![(2 : ℝ), 0, 0] ![2, 0, 0] = 4 by simp [dot3]; norm_num,
      show (4 : ℝ) = 2 ^ 2 by norm_num, Real.sqrt_sq (by norm_num)]
  have hA : gauss_a ![1, 0, 0] ![2, 0, 0] true = 2 := by
    rw [gauss_a]
    simp only [hr1, hr2]
    rw [show dot3 ![(1 : ℝ), 0, 0] ![2, 0, 0] = 2 by simp [dot3],
      show (2 : ℝ) / (1 * 2) = 1 by norm_num, Real.arccos_one, sub_zero,
      Real.sign_of_pos Real.pi_pos, Real.cos_zero]
    rw [show (1 : ℝ) * 2 * (1 + 1) = 2 ^ 2 by norm_num, Real.sqrt_sq (by norm_num)]
    norm_num
  have := (gauss_problem_y_negative_raises 0 0 0 1 (1 / 10000) 1 true 5 0
    ![1, 0, 0] ![2, 0, 0] (-1)).2.2
  apply this
  rw [hr1, hr2, hA]
  exact gauss_y_concrete_neg

/-! Claim C7: the `f·ġ − ḟ·g` consistency check of `kepler_problem`. -/

/-- Claim C7: whenever `kepler_problem` converges (returns a result), the
consistency check `f·ġ − ḟ·g` it reports equals `1` exactly (in particular
within `1e-6`), for `μ > 0`, a nonzero initial radius, a nonzero final
radius, and a state on the physical branch (`dt/dx ≥ 0` at the final
universal variable, which holds for every true orbit since `√μ·dt/dx` is
the orbital radius there). -/
theorem kepler_problem_check_eq_one (position_vector velocity_vector : Fin 3 → ℝ)
    (flight_time trial_variable uncertainty μ : ℝ) (fuel : ℕ) (res : KeplerResult)
    (hμ : 0 < μ) (hr0 : 0 < norm3 position_vector)
    (hres : kepler_problem position_vector velocity_vector flight_time trial_variable
        uncertainty μ fuel = some res)
    (hdtdx : 0 ≤ kepler_dtdx position_vector velocity_vector μ res.universal_variable)
    (hrf : norm3 res.position_vector_final ≠ 0) :
    res.check = 1 := by
  simp only [kepler_problem] at hres
  rcases Option.map_eq_some'.mp hres with ⟨x, hloopx, hfinx⟩
  subst hfinx
  have hdtdx' : 0 ≤ kepler_dtdx position_vector velocity_vector μ x := hdtdx
  have hrf' : norm3 (fun j =>
      (1 - stumpff_c (kepler_alpha position_vector velocity_vector μ * x ^ 2) * x ^ 2 /
          norm3 position_vector) * position_vector j +
        (kepler_t position_vector velocity_vector μ x -
            stumpff_s (kepler_alpha position_vector velocity_vector μ * x ^ 2) * x ^ 3 /
              Real.sqrt μ) * velocity_vector j) ≠ 0 := hrf
  show (1 - stumpff_c (kepler_alpha position_vector velocity_vector μ * x ^ 2) * x ^ 2 /
        norm3 position_vector) *
      (1 - stumpff_c (kepler_alpha position_vector velocity_vector μ * x ^ 2) * x ^ 2 /
        norm3 (fun j =>
          (1 - stumpff_c (kepler_alpha position_vector velocity_vector μ * x ^ 2) * x ^ 2 /
              norm3 position_vector) * position_vector j +
            (kepler_t position_vector velocity_vector μ x -
                stumpff_s (kepler_alpha position_vector velocity_vector μ * x ^ 2) * x ^ 3 /
                  Real.sqrt μ) * velocity_vector j)) -
      Real.sqrt μ * x *
          (kepler_alpha position_vector velocity_vector μ * x ^ 2 *
              stumpff_s (kepler_alpha position_vector velocity_vector μ * x ^ 2) - 1) /
          (norm3 position_vector *
            norm3 (fun j =>
              (1 - stumpff_c (kepler_alpha position_vector velocity_vector μ * x ^ 2) *
                  x ^ 2 / norm3 position_vector) * position_vector j +
                (kepler_t position_vector velocity_vector μ x -
                    stumpff_s (kepler_alpha position_vector velocity_vector μ * x ^ 2) *
                      x ^ 3 / Real.sqrt μ) * velocity_vector j)) *
        (kepler_t position_vector velocity_vector μ x -
          stumpff_s (kepler_alpha position_vector velocity_vector μ * x ^ 2) * x ^ 3 /
            Real.sqrt μ) = 1
  set m := Real.sqrt μ with hmdef
  set r0 := norm3 position_vector with hr0def
  set d := dot3 position_vector velocity_vector with hddef
  set α := kepler_alpha position_vector velocity_vector μ with hαdef
  set c := stumpff_c (α * x ^ 2) with hcdef
  set s := stumpff_s (α * x ^ 2) with hsdef2
  set t := kepler_t position_vector velocity_vector μ x with htdef
  set rf := norm3 (fun j => (1 - c * x ^ 2 / r0) * position_vector j +
      (t - s * x ^ 3 / m) * velocity_vector j) with hrfdef
  have hm0 : m ≠ 0 := by rw [hmdef]; exact (Real.sqrt_pos.mpr hμ).ne'
  have hm2 : m ^ 2 = μ := by rw [hmdef]; exact Real.sq_sqrt hμ.le
  have hr0ne : r0 ≠ 0 := hr0.ne'
  have hmaster : (1 - α * x ^ 2 * s) ^ 2 = c * (2 - α * x ^ 2 * c) := by
    rw [hcdef, hsdef2]
    exact stumpff_master _
  have hgform : t - s * x ^ 3 / m = (d * x ^ 2 * c / m + r0 * x * (1 - α * x ^ 2 * s)) / m := by
    rw [htdef]
    simp only [kepler_t]
    rw [← hαdef, ← hddef, ← hr0def, ← hmdef, ← hcdef, ← hsdef2]
    exact kepler_g_scalar d r0 c s α μ m x hm2 hm0
  have hEform : m * kepler_dtdx position_vector velocity_vector μ x =
      x ^ 2 * c + d * x * (1 - α * x ^ 2 * s) / m + r0 * (1 - α * x ^ 2 * c) := by
    simp only [kepler_dtdx]
    rw [← hαdef, ← hddef, ← hr0def, ← hmdef, ← hcdef, ← hsdef2]
    exact kepler_E_scalar d r0 c s α μ m x hm2 hm0
  have hE0 : 0 ≤ x ^ 2 * c + d * x * (1 - α * x ^ 2 * s) / m + r0 * (1 - α * x ^ 2 * c) := by
    rw [← hEform]
    exact mul_nonneg (by rw [hmdef]; exact Real.sqrt_nonneg μ) hdtdx'
  have hv : norm3 velocity_vector ^ 2 = 2 * μ / r0 - α * μ := by
    rw [hαdef, kepler_alpha, ← hr0def]
    field_simp
    ring
  have hdotpp : dot3 position_vector position_vector = r0 ^ 2 := by
    rw [hr0def]
    exact (norm3_sq _).symm
  have hdotvv : dot3 velocity_vector velocity_vector = norm3 velocity_vector ^ 2 :=
    (norm3_sq _).symm
  have hrfsq : rf ^ 2 =
      (x ^ 2 * c + d * x * (1 - α * x ^ 2 * s) / m + r0 * (1 - α * x ^ 2 * c)) ^ 2 := by
    rw [hrfdef, norm3_sq]
    rw [show dot3
        (fun j => (1 - c * x ^ 2 / r0) * position_vector j +
          (t - s * x ^ 3 / m) * velocity_vector j)
        (fun j => (1 - c * x ^ 2 / r0) * position_vector j +
          (t - s * x ^ 3 / m) * velocity_vector j) =
        (1 - c * x ^ 2 / r0) ^ 2 * dot3 position_vector position_vector +
          2 * (1 - c * x ^ 2 / r0) * (t - s * x ^ 3 / m) * d +
            (t - s * x ^ 3 / m) ^ 2 * dot3 velocity_vector velocity_vector from by
      rw [hddef]
      simp only [dot3]
      ring]
    rw [hdotpp, hdotvv, hgform, hv]
    exact kepler_rf_sq_scalar c s (α * x ^ 2) x d r0 (2 * μ / r0 - α * μ) μ m α hm2 hm0
      hr0ne rfl rfl hmaster
  have hrf0 : 0 ≤ rf := by rw [hrfdef]; exact Real.sqrt_nonneg _
  have hrfE : rf = x ^ 2 * c + d * x * (1 - α * x ^ 2 * s) / m + r0 * (1 - α * x ^ 2 * c) := by
    have h1 : (rf - (x ^ 2 * c + d * x * (1 - α * x ^ 2 * s) / m +
        r0 * (1 - α * x ^ 2 * c))) *
        (rf + (x ^ 2 * c + d * x * (1 - α * x ^ 2 * s) / m + r0 * (1 - α * x ^ 2 * c))) =
        0 := by
      linear_combination hrfsq
    rcases mul_eq_zero.mp h1 with h | h
    · linarith
    · exact absurd (by linarith : rf = 0) hrf'
  rw [hgform, kepler_check_scalar c s (α * x ^ 2) x d r0 m rf hm0 hr0ne hrf' hmaster, hrfE]
  simp

/-- Witness for C7: at `r⃗₀ = (1,0,0)`, `v⃗₀ = (0,√2,0)`, `μ = 1`, trial
variable `1`, flight time `7/6` and tolerance `1`, the loop converges at
once and the reported check is exactly `1`. -/
theorem kepler_problem_check_eq_one_witness :
    (kepler_final ![(1:ℝ), 0, 0] ![(0:ℝ), Real.sqrt 2, 0] 1 1).check = 1 := by
  have hv2 : dot3 ![(0:ℝ), Real.sqrt 2, 0] ![(0:ℝ), Real.sqrt 2, 0] = 2 := by
    simp [dot3]
  have hp1 : norm3 ![(1:ℝ), 0, 0] = 1 := by
    simp [norm3, dot3]
  have hv2n : norm3 ![(0:ℝ), Real.sqrt 2, 0] ^ 2 = 2 := by
    rw [norm3, Real.sq_sqrt (by rw [hv2]; norm_num), hv2]
  have hα : kepler_alpha ![(1:ℝ), 0, 0] ![(0:ℝ), Real.sqrt 2, 0] 1 = 0 := by
    rw [kepler_alpha, hp1, hv2n]
    norm_num
  have hd : dot3 ![(1:ℝ), 0, 0] ![(0:ℝ), Real.sqrt 2, 0] = 0 := by
    simp [dot3]
  have ht : kepler_t ![(1:ℝ), 0, 0] ![(0:ℝ), Real.sqrt 2, 0] 1 1 = 7 / 6 := by
    simp only [kepler_t]
    rw [hα, hp1, hd]
    norm_num [stumpff_c, stumpff_s]
  have hloop : kepler_loop ![(1:ℝ), 0, 0] ![(0:ℝ), Real.sqrt 2, 0] (7 / 6) 1 1 1 1 =
      some 1 := by
    rw [kepler_loop, ht, if_pos (by norm_num)]
  have hres : kepler_problem ![(1:ℝ), 0, 0] ![(0:ℝ), Real.sqrt 2, 0] (7 / 6) 1 1 1 1 =
      some (kepler_final ![(1:ℝ), 0, 0] ![(0:ℝ), Real.sqrt 2, 0] 1 1) := by
    rw [kepler_problem, hloop]
    rfl
  have huv : (kepler_final ![(1:ℝ), 0, 0] ![(0:ℝ), Real.sqrt 2, 0] 1 1).universal_variable =
      1 := rfl
  have hdtdxval : kepler_dtdx ![(1:ℝ), 0, 0] ![(0:ℝ), Real.sqrt 2, 0] 1 1 = 3 / 2 := by
    simp only [kepler_dtdx]
    rw [hα, hp1, hd]
    norm_num [stumpff_c]
  have hdtdx : 0 ≤ kepler_dtdx ![(1:ℝ), 0, 0] ![(0:ℝ), Real.sqrt 2, 0] 1
      (kepler_final ![(1:ℝ), 0, 0] ![(0:ℝ), Real.sqrt 2, 0] 1 1).universal_variable := by
    rw [huv, hdtdxval]
    norm_num
  have hpvf : (kepler_final ![(1:ℝ), 0, 0] ![(0:ℝ), Real.sqrt 2, 0] 1 1).position_vector_final =
      fun j => (1 / 2 : ℝ) * (![(1:ℝ), 0, 0] j) + 1 * (![(0:ℝ), Real.sqrt 2, 0] j) := by
    simp only [kepler_final]
    rw [hα, hp1, ht]
    funext j
    norm_num [stumpff_c, stumpff_s]
  have hrf : norm3 (kepler_final ![(1:ℝ), 0, 0]
      ![(0:ℝ), Real.sqrt 2, 0] 1 1).position_vector_final ≠ 0 := by
    rw [hpvf]
    have hdf : dot3 (fun j => (1 / 2 : ℝ) * (![(1:ℝ), 0, 0] j) + 1 * (![(0:ℝ), Real.sqrt 2, 0] j))
        (fun j => (1 / 2 : ℝ) * (![(1:ℝ), 0, 0] j) + 1 * (![(0:ℝ), Real.sqrt 2, 0] j)) =
        9 / 4 := by
      simp [dot3]
      norm_num
    rw [norm3, hdf, show (9 / 4 : ℝ) = (3 / 2) ^ 2 by norm_num,
      Real.sqrt_sq (by norm_num)]
    norm_num
  exact kepler_problem_check_eq_one ![(1:ℝ), 0, 0] ![(0:ℝ), Real.sqrt 2, 0] (7 / 6) 1 1 1 1
    (kepler_final ![(1:ℝ), 0, 0] ![(0:ℝ), Real.sqrt 2, 0] 1 1) one_pos
    (by rw [hp1]; norm_num) hres hdtdx hrf

end Orbits
